import Mathlib

set_option maxHeartbeats 1600000

/-!
Verification development for the trivy-dojo-report-operator
(`src/handlers.py`, handler `send_to_dojo`).

The Python handler is shallowly embedded.  Dict subscripts and attribute
accesses return `Except PyErr` values mirroring `KeyError`,
`AttributeError`, `ValueError` and `TypeError`; `datetime.strptime` with
the fixed format string, glibc `strftime`, Python `json.dumps`, and the
`requests` response classification are modelled as executable functions;
the HTTP transport is an environment parameter of the handler.
-/

/-- Python exceptions the handler body can raise: `keyError k` from a failed
dict subscript `d[k]`, `valueError` from `datetime.strptime` or the
`datetime` constructor, `attributeError a` from a failed attribute access
`obj.a`, and `typeError` from subscripting a non-mapping. -/
inductive PyErr where
  | keyError (k : String)
  | valueError
  | attributeError (a : String)
  | typeError
  deriving Repr, DecidableEq

/-- JSON-shaped Python values, as they occur in the `vulnerabilityreport`
body handed to the handler.  Numbers are modelled as integers. -/
inductive Json where
  | null
  | bool (b : Bool)
  | int (n : Int)
  | str (s : String)
  | arr (elems : List Json)
  | obj (items : List (String × Json))
  deriving Repr

/-- Decimal digit character for a value below ten. -/
def digitChar (n : Nat) : Char := Char.ofNat (48 + n)

/-- Fuel-driven digit expansion; the fuel `n + 1` in `numChars` always
suffices because the argument shrinks by a factor of ten each step. -/
def numCharsAux : Nat → Nat → List Char
  | 0, _ => []
  | fuel + 1, n =>
    if n < 10 then [digitChar n]
    else numCharsAux fuel (n / 10) ++ [digitChar (n % 10)]

/-- Decimal digits of a natural number, most significant first: the digits
Python `str(n)` produces. -/
def numChars (n : Nat) : List Char := numCharsAux (n + 1) n

/-- Python `str` of a natural number. -/
def natStr (n : Nat) : String := String.mk (numChars n)

/-- Python `str`/`repr`/`json.dumps` rendering of an int. -/
def intRepr (n : Int) : String :=
  if n < 0 then "-" ++ natStr n.natAbs else natStr n.toNat

/-- Lower-case hexadecimal digit character for a value below sixteen. -/
def hexDigitChar (n : Nat) : Char :=
  if n < 10 then Char.ofNat (48 + n) else Char.ofNat (87 + n)

/-- Escaping of one character inside a JSON string literal as Python
`json.dumps` performs it: the two JSON metacharacters, the five named
control escapes, and `\u00XX` for the remaining control characters.
Printable non-ASCII characters are kept literal (the `ensure_ascii`
transliteration, which does not affect any structure, is not modelled). -/
def escapeChar (c : Char) : List Char :=
  if c = '"' then ['\\', '"']
  else if c = '\\' then ['\\', '\\']
  else if c = '\n' then ['\\', 'n']
  else if c = '\t' then ['\\', 't']
  else if c = '\r' then ['\\', 'r']
  else if c.toNat = 8 then ['\\', 'b']
  else if c.toNat = 12 then ['\\', 'f']
  else if c.toNat < 32 then
    ['\\', 'u', '0', '0', hexDigitChar (c.toNat / 16), hexDigitChar (c.toNat % 16)]
  else [c]

/-- Escaping of a whole character sequence. -/
def escapeChars : List Char → List Char
  | [] => []
  | c :: t => escapeChar c ++ escapeChars t

/-- Python `json.dumps` rendering of a string: double quotes around the
escaped body. -/
def jsonQuote (s : String) : String := String.mk ('"' :: (escapeChars s.data ++ ['"']))

mutual

/-- Python `json.dumps` with its default separators `", "` and `": "`,
value case. -/
def dumpsVal : Json → String
  | Json.null => "null"
  | Json.bool true => "true"
  | Json.bool false => "false"
  | Json.int n => intRepr n
  | Json.str s => jsonQuote s
  | Json.arr l => "[" ++ dumpsElems l ++ "]"
  | Json.obj l => "\x7b" ++ dumpsItems l ++ "\x7d"

/-- Array elements joined by the default item separator. -/
def dumpsElems : List Json → String
  | [] => ""
  | [j] => dumpsVal j
  | j :: t => dumpsVal j ++ ", " ++ dumpsElems t

/-- Object items rendered `"key": value` and joined by the default item
separator. -/
def dumpsItems : List (String × Json) → String
  | [] => ""
  | [(k, v)] => jsonQuote k ++ ": " ++ dumpsVal v
  | (k, v) :: t => jsonQuote k ++ ": " ++ dumpsVal v ++ ", " ++ dumpsItems t

end

/-- Python `json.dumps` of a JSON value. -/
def dumps (j : Json) : String := dumpsVal j

mutual

/-- Python `repr` of a JSON-shaped value, modelled up to string-quoting
details (single quotes, no escape processing inside them). -/
def pyReprVal : Json → String
  | Json.null => "None"
  | Json.bool true => "True"
  | Json.bool false => "False"
  | Json.int n => intRepr n
  | Json.str s => "'" ++ s ++ "'"
  | Json.arr l => "[" ++ pyReprElems l ++ "]"
  | Json.obj l => "\x7b" ++ pyReprItems l ++ "\x7d"

/-- Elements of a Python list repr. -/
def pyReprElems : List Json → String
  | [] => ""
  | [j] => pyReprVal j
  | j :: t => pyReprVal j ++ ", " ++ pyReprElems t

/-- Items of a Python dict repr. -/
def pyReprItems : List (String × Json) → String
  | [] => ""
  | [(k, v)] => "'" ++ k ++ "': " ++ pyReprVal v
  | (k, v) :: t => "'" ++ k ++ "': " ++ pyReprVal v ++ ", " ++ pyReprItems t

end

/-- Python `str()` of a JSON-shaped value, as f-string interpolation
`f'...'` applies it: a string interpolates verbatim, every other value
through its repr (with `True`/`False`/`None` spelling for scalars). -/
def pyStr : Json → String
  | Json.str s => s
  | j => pyReprVal j

/-- Result of a successful `datetime.strptime` call: the six parsed
components of the timestamp. -/
structure PyDateTime where
  year : Nat
  month : Nat
  day : Nat
  hour : Nat
  minute : Nat
  second : Nat
  deriving Repr, DecidableEq

/-- Decimal digit test on the character's code point. -/
def isDigitC (c : Char) : Bool := 48 ≤ c.toNat && c.toNat ≤ 57

/-- Numeric value of a decimal digit character. -/
def digitVal (c : Char) : Nat := c.toNat - 48

/-- Consume one expected character, given by its code point. -/
def expectChar (n : Nat) : List Char → Option (List Char)
  | c :: rest => if c.toNat = n then some rest else none
  | [] => none

/-- The `%Y` field of CPython `_strptime`: exactly four decimal digits. -/
def parseYearF : List Char → Option (Nat × List Char)
  | c1 :: c2 :: c3 :: c4 :: rest =>
    if isDigitC c1 && isDigitC c2 && isDigitC c3 && isDigitC c4 then
      some (1000 * digitVal c1 + 100 * digitVal c2 + 10 * digitVal c3 + digitVal c4, rest)
    else none
  | _ => none

/-- The `%m` field of CPython `_strptime`, regex `1[0-2]|0[1-9]|[1-9]`,
followed in the format by `-` (code point 45).  A one-digit match is taken
exactly when the following character is that delimiter, which is how the
regex backtracking resolves for this format. -/
def parseMonthF : List Char → Option (Nat × List Char)
  | c1 :: c2 :: rest =>
    if c1.toNat = 48 && isDigitC c2 && c2.toNat ≠ 48 then some (digitVal c2, rest)
    else if c1.toNat = 49 && (48 ≤ c2.toNat && c2.toNat ≤ 50) then some (10 + digitVal c2, rest)
    else if isDigitC c1 && c1.toNat ≠ 48 && c2.toNat = 45 then some (digitVal c1, c2 :: rest)
    else none
  | _ => none

/-- The `%d` field, regex `3[01]|[12]\d|0[1-9]|[1-9]`, followed by `T`
(code point 84). -/
def parseDayF : List Char → Option (Nat × List Char)
  | c1 :: c2 :: rest =>
    if c1.toNat = 51 && (c2.toNat = 48 || c2.toNat = 49) then some (30 + digitVal c2, rest)
    else if (c1.toNat = 49 || c1.toNat = 50) && isDigitC c2 then
      some (10 * digitVal c1 + digitVal c2, rest)
    else if c1.toNat = 48 && isDigitC c2 && c2.toNat ≠ 48 then some (digitVal c2, rest)
    else if isDigitC c1 && c1.toNat ≠ 48 && c2.toNat = 84 then some (digitVal c1, c2 :: rest)
    else none
  | _ => none

/-- The `%H` field, regex `2[0-3]|[0-1]\d|\d`, followed by `:` (58). -/
def parseHourF : List Char → Option (Nat × List Char)
  | c1 :: c2 :: rest =>
    if c1.toNat = 50 && (48 ≤ c2.toNat && c2.toNat ≤ 51) then some (20 + digitVal c2, rest)
    else if (c1.toNat = 48 || c1.toNat = 49) && isDigitC c2 then
      some (10 * digitVal c1 + digitVal c2, rest)
    else if isDigitC c1 && c2.toNat = 58 then some (digitVal c1, c2 :: rest)
    else none
  | _ => none

/-- The `%M` field, regex `[0-5]\d|\d`, followed by `:` (58). -/
def parseMinF : List Char → Option (Nat × List Char)
  | c1 :: c2 :: rest =>
    if (48 ≤ c1.toNat && c1.toNat ≤ 53) && isDigitC c2 then
      some (10 * digitVal c1 + digitVal c2, rest)
    else if isDigitC c1 && c2.toNat = 58 then some (digitVal c1, c2 :: rest)
    else none
  | _ => none

/-- The `%S` field, regex `6[0-1]|[0-5]\d|\d` (leap seconds are matched by
the regex and rejected later by the `datetime` constructor), followed by
`Z` (90). -/
def parseSecF : List Char → Option (Nat × List Char)
  | c1 :: c2 :: rest =>
    if c1.toNat = 54 && (c2.toNat = 48 || c2.toNat = 49) then some (60 + digitVal c2, rest)
    else if (48 ≤ c1.toNat && c1.toNat ≤ 53) && isDigitC c2 then
      some (10 * digitVal c1 + digitVal c2, rest)
    else if isDigitC c1 && c2.toNat = 90 then some (digitVal c1, c2 :: rest)
    else none
  | _ => none

/-- Gregorian leap-year rule, as `datetime` uses it. -/
def leapYear (y : Nat) : Bool := y % 4 = 0 && (y % 100 ≠ 0 || y % 400 = 0)

/-- Length of a month, as the `datetime` constructor validates it. -/
def daysInMonth (y m : Nat) : Nat :=
  if m = 2 then (if leapYear y then 29 else 28)
  else if m = 4 || m = 6 || m = 9 || m = 11 then 30
  else 31

/-- CPython semantics of `datetime.strptime(s, %Y-%m-%dT%H:%M:%SZ)` (used on
lines 69 and 70 of the handler): the format compiles to a regex over the six
fields above with literal separators, the regex must consume the entire
string, and the `datetime` constructor then validates the calendar (year at
least `MINYEAR = 1`, day within the month, second at most 59), raising
`ValueError` on any failure. -/
def pyStrptimeTs (s : String) : Except PyErr PyDateTime :=
  let parsed : Option PyDateTime := do
    let (y, r0) ← parseYearF s.data
    let r1 ← expectChar 45 r0
    let (mo, r2) ← parseMonthF r1
    let r3 ← expectChar 45 r2
    let (d, r4) ← parseDayF r3
    let r5 ← expectChar 84 r4
    let (h, r6) ← parseHourF r5
    let r7 ← expectChar 58 r6
    let (mi, r8) ← parseMinF r7
    let r9 ← expectChar 58 r8
    let (se, r10) ← parseSecF r9
    let r11 ← expectChar 90 r10
    if r11 = [] then some ⟨y, mo, d, h, mi, se⟩ else none
  match parsed with
  | none => Except.error PyErr.valueError
  | some dt =>
    if 1 ≤ dt.year && 1 ≤ dt.day && dt.day ≤ daysInMonth dt.year dt.month && dt.second ≤ 59 then
      Except.ok dt
    else Except.error PyErr.valueError

/-- Zero-padding to two digits, as glibc `strftime` `%m`/`%d` print. -/
def pad2 (n : Nat) : String := if n < 10 then "0" ++ natStr n else natStr n

/-- glibc `strftime(%Y-%m-%d)` on the parsed timestamp: the year printed
unpadded (`%Y` does not pad on glibc; parsed years are four digits in
practice), month and day zero-padded to two digits. -/
def fmtDate (dt : PyDateTime) : String :=
  natStr dt.year ++ "-" ++ pad2 dt.month ++ "-" ++ pad2 dt.day

/-- Full English month name, as `strftime(%B)` prints in the C locale. -/
def monthName : Nat → String
  | 1 => "January"
  | 2 => "February"
  | 3 => "March"
  | 4 => "April"
  | 5 => "May"
  | 6 => "June"
  | 7 => "July"
  | 8 => "August"
  | 9 => "September"
  | 10 => "October"
  | 11 => "November"
  | 12 => "December"
  | _ => ""

/-- Line 69 of the handler: `scan_date`. -/
def scan_date_of (ts : String) : Except PyErr String := (pyStrptimeTs ts).map fmtDate

/-- Line 70 of the handler: `scan_month`. -/
def scan_month_of (ts : String) : Except PyErr String :=
  (pyStrptimeTs ts).map (fun dt => monthName dt.month)

/-- Modelled from the spec: `settings.py` is not under `src/`; the spec
(sections 4.1 and 6) says its values are a fixed set of process-wide
scan-policy options plus endpoint and credential, all passed through
unchanged, so they are modelled as opaque strings. -/
structure Settings where
  DEFECT_DOJO_API_KEY : String
  DEFECT_DOJO_URL : String
  DEFECT_DOJO_ACTIVE : String
  DEFECT_DOJO_VERIFIED : String
  DEFECT_DOJO_CLOSE_OLD_FINDINGS_PRODUCT_SCOPE : String
  DEFECT_DOJO_MINIMUM_SEVERITY : String
  DEFECT_DOJO_AUTO_CREATE_CONTEXT : String
  DEFECT_DOJO_DEDUPLICATION_ON_ENGAGEMENT : String
  DEFECT_DOJO_DO_NOT_REACTIVATE : String
  DEFECT_DOJO_ENVIRONMENT : String
  DEFECT_DOJO_PRODUCT_NAME : String
  DEFECT_DOJO_PRODUCT_TYPE_NAME : String
  DEFECT_DOJO_GROUP_BY : String
  deriving Repr, DecidableEq

/-- The `meta` argument kopf passes to the handler: resource name, creation
timestamp, and the label mapping (string keys to string values). -/
structure KMeta where
  name : String
  creationTimestamp : String
  labels : List (String × String)
  deriving Repr

/-- One delivered creation event: the `meta` mapping and the full resource
`body` (a JSON object given by its top-level items in iteration order). -/
structure Event where
  meta : KMeta
  body : List (String × Json)
  deriving Repr

/-- Python dict subscript `labels[k]` on a string-valued mapping. -/
def labelsGet (m : List (String × String)) (k : String) : Except PyErr String :=
  match m.find? (fun p => p.1 == k) with
  | some p => Except.ok p.2
  | none => Except.error (PyErr.keyError k)

/-- Association lookup in a JSON object's item list. -/
def assocGet (l : List (String × Json)) (k : String) : Option Json :=
  (l.find? (fun p => p.1 == k)).map (fun p => p.2)

/-- Python subscript `body[k]` on the event body. -/
def bodyGet (e : Event) (k : String) : Except PyErr Json :=
  match assocGet e.body k with
  | some v => Except.ok v
  | none => Except.error (PyErr.keyError k)

/-- Python subscript `j[k]` on a nested JSON value: a `KeyError` when the
key is absent from an object, a `TypeError` when the value subscripted with
a string key is not an object. -/
def jsonGet (j : Json) (k : String) : Except PyErr Json :=
  match j with
  | Json.obj l =>
    match assocGet l k with
    | some v => Except.ok v
    | none => Except.error (PyErr.keyError k)
  | _ => Except.error PyErr.typeError

/-- Left-to-right evaluation of `body["report"][k1][k2]`, re-reading
`body["report"]` as each of the four source expressions does. -/
def reportPath (e : Event) (k1 k2 : String) : Except PyErr Json :=
  match bodyGet e "report" with
  | Except.error er => Except.error er
  | Except.ok r =>
    match jsonGet r k1 with
    | Except.error er => Except.error er
    | Except.ok v => jsonGet v k2

/-- Python dict item assignment `d[k] = v`: overwrite in place when the key
exists, append otherwise. -/
def dictInsert (d : List (String × Json)) (k : String) (v : Json) : List (String × Json) :=
  if d.any (fun p => p.1 == k) then d.map (fun p => if p.1 == k then (k, v) else p)
  else d ++ [(k, v)]

/-- Lines 57-59 of the handler: `full_object = {}` then
`for i in body: full_object[i] = body[i]`. -/
def full_object (body : List (String × Json)) : List (String × Json) :=
  body.foldl (fun acc p => dictInsert acc p.1 p.2) []

/-- Label keys the handler reads (lines 72-79). -/
def nsLabelKey : String := "trivy-operator.resource.namespace"

/-- Label key for the resource kind. -/
def kindLabelKey : String := "trivy-operator.resource.kind"

/-- Label key for the container name. -/
def containerLabelKey : String := "trivy-operator.container.name"

/-- Label key for the resource name. -/
def nameLabelKey : String := "trivy-operator.resource.name"

/-- Lines 76-79 of the handler.  The `ReplicaSet` branch (line 77) reads
`input.operatorObject.metadata.labels[...]`: `input` is the Python builtin
function, which has no attribute `operatorObject`, so that branch raises
`AttributeError` unconditionally.  The other branch reads the name label
verbatim. -/
def resource_name (kind : String) (labels : List (String × String)) : Except PyErr String :=
  if kind == "ReplicaSet" then Except.error (PyErr.attributeError "operatorObject")
  else labelsGet labels nameLabelKey

/-- Exceptions escaping the handler: either an uncaught Python error from
the build phase, or a `kopf.PermanentError` raised by the submission
classification (lines 128-133). -/
inductive HandlerErr where
  | py (e : PyErr)
  | permanentError (msg : String)
  deriving Repr, DecidableEq

/-- Whether the escaping exception is a `kopf.PermanentError`. -/
def HandlerErr.isPermanent : HandlerErr → Bool
  | HandlerErr.py _ => false
  | HandlerErr.permanentError _ => true

/-- Result of one handler invocation as the hosting framework sees it. -/
inductive Outcome where
  | success
  | failure (err : HandlerErr)
  deriving Repr, DecidableEq

/-- Modelled from the spec (section 7): kopf treats `kopf.PermanentError`
as a terminal, non-retryable failure; any other exception escaping the
handler is an ordinary handler error that the framework may retry. -/
def surfacedNonRetryable : Outcome → Bool
  | Outcome.failure err => err.isPermanent
  | Outcome.success => false

/-- Environment model of what the single `requests.post` call does in this
invocation: either the final response (status, reason phrase, body content)
or a raised transport exception rendered by its message. -/
inductive TransportResult where
  | response (status : Nat) (reason : String) (content : String)
  | exn (excMsg : String)
  deriving Repr, DecidableEq

/-- The `requests` method `Response.raise_for_status`: raises an `HTTPError`
whose message names the status, `Client Error` for 4xx or `Server Error`
for 5xx, the reason phrase and the url; any other status raises nothing. -/
def raise_for_status (status : Nat) (reason url : String) : Option String :=
  if 400 ≤ status && status < 500 then
    some (natStr status ++ " Client Error: " ++ reason ++ " for url: " ++ url)
  else if 500 ≤ status && status < 600 then
    some (natStr status ++ " Server Error: " ++ reason ++ " for url: " ++ url)
  else none

/-- The multipart request the handler posts (lines 92-126): url, headers,
form fields in source order, the file part (name and content), and the
`verify=False` flag. -/
structure HttpRequest where
  url : String
  headers : List (String × String)
  data : List (String × String)
  fileName : String
  fileContent : String
  verifyTls : Bool
  deriving Repr, DecidableEq

/-- Lines 51-117 of the handler: everything before the `try` block, with
each fallible Python expression evaluated in source order.  A raised
exception aborts the build; otherwise the complete request is assembled. -/
def buildRequest (s : Settings) (e : Event) : Except PyErr HttpRequest :=
  let json_string := dumps (Json.obj (full_object e.body))
  match pyStrptimeTs e.meta.creationTimestamp with
  | Except.error er => Except.error er
  | Except.ok dtA =>
  match pyStrptimeTs e.meta.creationTimestamp with
  | Except.error er => Except.error er
  | Except.ok dtB =>
  match labelsGet e.meta.labels nsLabelKey with
  | Except.error er => Except.error er
  | Except.ok nspace =>
  match labelsGet e.meta.labels kindLabelKey with
  | Except.error er => Except.error er
  | Except.ok kind =>
  match labelsGet e.meta.labels containerLabelKey with
  | Except.error er => Except.error er
  | Except.ok container =>
  match resource_name kind e.meta.labels with
  | Except.error er => Except.error er
  | Except.ok name =>
  match reportPath e "registry" "server" with
  | Except.error er => Except.error er
  | Except.ok serverJ =>
  match reportPath e "artifact" "repository" with
  | Except.error er => Except.error er
  | Except.ok repoJ =>
  match reportPath e "arficat" "tag" with
  | Except.error er => Except.error er
  | Except.ok tagJ =>
  match reportPath e "artifact" "digest" with
  | Except.error er => Except.error er
  | Except.ok digestJ =>
  match reportPath e "artifact" "repository" with
  | Except.error er => Except.error er
  | Except.ok repoJ2 =>
  let scan_date := fmtDate dtA
  let scan_month := monthName dtB.month
  let image_name := pyStr serverJ ++ "/" ++ pyStr repoJ
  let image_version := pyStr tagJ
  let _image_full_name := image_name ++ ":" ++ image_version
  let image_digest := pyStr digestJ
  let service :=
    nspace ++ "__" ++ kind ++ "__" ++ name ++ "__" ++ container ++ "__" ++ pyStr repoJ2
  Except.ok
    { url := s.DEFECT_DOJO_URL ++ "/api/v2/reimport-scan/"
      headers := [("Authorization", "Token " ++ s.DEFECT_DOJO_API_KEY),
        ("Accept", "application/json")]
      data := [("active", s.DEFECT_DOJO_ACTIVE),
        ("verified", s.DEFECT_DOJO_VERIFIED),
        ("scan_date", scan_date),
        ("close_old_findings", s.DEFECT_DOJO_CLOSE_OLD_FINDINGS_PRODUCT_SCOPE),
        ("close_old_findings_product_scope", s.DEFECT_DOJO_CLOSE_OLD_FINDINGS_PRODUCT_SCOPE),
        ("minimum_severity", s.DEFECT_DOJO_MINIMUM_SEVERITY),
        ("auto_create_context", s.DEFECT_DOJO_AUTO_CREATE_CONTEXT),
        ("deduplication_on_engagement", s.DEFECT_DOJO_DEDUPLICATION_ON_ENGAGEMENT),
        ("do_not_reactivate", s.DEFECT_DOJO_DO_NOT_REACTIVATE),
        ("scan_type", "Trivy Operator Scan"),
        ("engagement_name", "FedRamp Audit - " ++ scan_month),
        ("environment", s.DEFECT_DOJO_ENVIRONMENT),
        ("product_name", s.DEFECT_DOJO_PRODUCT_NAME),
        ("product_type_name", s.DEFECT_DOJO_PRODUCT_TYPE_NAME),
        ("group_by", s.DEFECT_DOJO_GROUP_BY),
        ("test_title", e.meta.name),
        ("service", service),
        ("version", image_version),
        ("tags", "image_digest=" ++ image_digest)]
      fileName := "report.json"
      fileContent := json_string
      verifyTls := false }

/-- The whole handler `send_to_dojo` (lines 51-136): an exception in the
build phase propagates before any network call (first component `none`);
otherwise exactly one POST is attempted and its outcome classified per
lines 119-136: a 4xx/5xx response raises `kopf.PermanentError` with the
`HTTPError` text and the response content, any other exception from the
call raises `kopf.PermanentError` with the exception text, and everything
else is success. -/
def send_to_dojo (s : Settings) (e : Event) (t : TransportResult) :
    Option HttpRequest × Outcome :=
  match buildRequest s e with
  | Except.error pe => (none, Outcome.failure (HandlerErr.py pe))
  | Except.ok req =>
    match t with
    | TransportResult.exn m =>
      (some req, Outcome.failure (HandlerErr.permanentError ("Other error occurred: " ++ m)))
    | TransportResult.response status reason content =>
      match raise_for_status status reason req.url with
      | some httpMsg =>
        (some req, Outcome.failure (HandlerErr.permanentError
          ("HTTP error occurred: " ++ httpMsg ++ " - " ++ content)))
      | none => (some req, Outcome.success)

/-- Sample configuration used by concrete witnesses. -/
def sampleSettings : Settings where
  DEFECT_DOJO_API_KEY := "key"
  DEFECT_DOJO_URL := "https://dojo.local"
  DEFECT_DOJO_ACTIVE := "True"
  DEFECT_DOJO_VERIFIED := "False"
  DEFECT_DOJO_CLOSE_OLD_FINDINGS_PRODUCT_SCOPE := "True"
  DEFECT_DOJO_MINIMUM_SEVERITY := "Info"
  DEFECT_DOJO_AUTO_CREATE_CONTEXT := "True"
  DEFECT_DOJO_DEDUPLICATION_ON_ENGAGEMENT := "False"
  DEFECT_DOJO_DO_NOT_REACTIVATE := "True"
  DEFECT_DOJO_ENVIRONMENT := "Production"
  DEFECT_DOJO_PRODUCT_NAME := "product"
  DEFECT_DOJO_PRODUCT_TYPE_NAME := "ptype"
  DEFECT_DOJO_GROUP_BY := "component_name"

/-- Report sub-object shaped exactly as the consumed-event section of the
spec documents it: registry server plus artifact repository, tag, digest. -/
def specShapedReport : Json :=
  Json.obj [("registry", Json.obj [("server", Json.str "index.docker.io")]),
    ("artifact", Json.obj [("repository", Json.str "library/nginx"),
      ("tag", Json.str "1.25.3"), ("digest", Json.str "sha256:abcd")])]

/-- Event with resource kind `ReplicaSet` and resource name
`web-7d8f9c9b5`, the spec's own ReplicaSet example, with a report body
shaped exactly as the spec documents. -/
def replicaSetEvent : Event where
  meta := { name := "replicaset-web-7d8f9c9b5-nginx"
            creationTimestamp := "2023-09-11T06:36:16Z"
            labels := [(nsLabelKey, "default"), (kindLabelKey, "ReplicaSet"),
              (containerLabelKey, "nginx"), (nameLabelKey, "web-7d8f9c9b5")] }
  body := [("apiVersion", Json.str "aquasecurity.github.io/v1alpha1"),
    ("kind", Json.str "VulnerabilityReport"), ("report", specShapedReport)]

/-- Well-formed non-ReplicaSet event with the report body shaped exactly as
the consumed-event section of the spec documents (in particular, no
`arficat` key). -/
def specShapedEvent : Event where
  meta := { name := "deployment-web-nginx"
            creationTimestamp := "2023-09-11T06:36:16Z"
            labels := [(nsLabelKey, "default"), (kindLabelKey, "Deployment"),
              (containerLabelKey, "nginx"), (nameLabelKey, "web")] }
  body := [("apiVersion", Json.str "aquasecurity.github.io/v1alpha1"),
    ("kind", Json.str "VulnerabilityReport"), ("report", specShapedReport)]

/-- Variant of `specShapedEvent` used as a concrete input of its own. -/
def specShapedEvent4 : Event where
  meta := { name := "statefulset-db-postgres"
            creationTimestamp := "2024-01-05T10:00:00Z"
            labels := [(nsLabelKey, "prod"), (kindLabelKey, "StatefulSet"),
              (containerLabelKey, "postgres"), (nameLabelKey, "db")] }
  body := [("report", specShapedReport)]

/-- Second variant of `specShapedEvent` used as a concrete input of its
own. -/
def specShapedEvent9 : Event where
  meta := { name := "daemonset-agent-agent"
            creationTimestamp := "2024-03-02T23:59:59Z"
            labels := [(nsLabelKey, "kube-system"), (kindLabelKey, "DaemonSet"),
              (containerLabelKey, "agent"), (nameLabelKey, "agent")] }
  body := [("report", specShapedReport)]

/-- Event whose labels lack the required namespace label. -/
def missingNamespaceEvent : Event where
  meta := { name := "deployment-web-nginx"
            creationTimestamp := "2023-09-11T06:36:16Z"
            labels := [(kindLabelKey, "Deployment"),
              (containerLabelKey, "nginx"), (nameLabelKey, "web")] }
  body := [("report", specShapedReport)]

/-- Report body that additionally contains the key `report.arficat.tag`
which line 82 of the handler actually reads, so that the build phase can
complete. -/
def extendedReport : Json :=
  Json.obj [("registry", Json.obj [("server", Json.str "index.docker.io")]),
    ("artifact", Json.obj [("repository", Json.str "library/nginx"),
      ("tag", Json.str "1.25.3"), ("digest", Json.str "sha256:abcd")]),
    ("arficat", Json.obj [("tag", Json.str "1.25.3")])]

/-- Concrete event on which the build phase completes and a request is
posted. -/
def goodEvent : Event where
  meta := { name := "deployment-web-nginx"
            creationTimestamp := "2023-09-11T06:36:16Z"
            labels := [(nsLabelKey, "default"), (kindLabelKey, "Deployment"),
              (containerLabelKey, "nginx"), (nameLabelKey, "web")] }
  body := [("apiVersion", Json.str "aquasecurity.github.io/v1alpha1"),
    ("report", extendedReport)]

/-- The request the handler builds from `goodEvent` under
`sampleSettings`. -/
def goodRequest : HttpRequest where
  url := "https://dojo.local/api/v2/reimport-scan/"
  headers := [("Authorization", "Token key"), ("Accept", "application/json")]
  data := [("active", "True"),
    ("verified", "False"),
    ("scan_date", "2023-09-11"),
    ("close_old_findings", "True"),
    ("close_old_findings_product_scope", "True"),
    ("minimum_severity", "Info"),
    ("auto_create_context", "True"),
    ("deduplication_on_engagement", "False"),
    ("do_not_reactivate", "True"),
    ("scan_type", "Trivy Operator Scan"),
    ("engagement_name", "FedRamp Audit - September"),
    ("environment", "Production"),
    ("product_name", "product"),
    ("product_type_name", "ptype"),
    ("group_by", "component_name"),
    ("test_title", "deployment-web-nginx"),
    ("service", "default__Deployment__web__nginx__library/nginx"),
    ("version", "1.25.3"),
    ("tags", "image_digest=sha256:abcd")]
  fileName := "report.json"
  fileContent := "\x7b\"apiVersion\": \"aquasecurity.github.io/v1alpha1\", \"report\": \x7b\"registry\": \x7b\"server\": \"index.docker.io\"\x7d, \"artifact\": \x7b\"repository\": \"library/nginx\", \"tag\": \"1.25.3\", \"digest\": \"sha256:abcd\"\x7d, \"arficat\": \x7b\"tag\": \"1.25.3\"\x7d\x7d\x7d"
  verifyTls := false

/-- Lookup of a form field in the posted data, by field name. -/
def formLookup (d : List (String × String)) (k : String) : Option String :=
  (d.find? (fun p => p.1 == k)).map (fun p => p.2)

/-- The four labels the handler requires (lines 72-79). -/
def requiredLabelKeys : List String :=
  [nsLabelKey, kindLabelKey, containerLabelKey, nameLabelKey]

/-- Whether the event carries a label with the given key. -/
def hasLabel (e : Event) (k : String) : Bool :=
  (e.meta.labels.find? (fun p => p.1 == k)).isSome

/-- Value of a hexadecimal digit character, if it is one. -/
def hexVal (c : Char) : Option Nat :=
  if 48 ≤ c.toNat && c.toNat ≤ 57 then some (c.toNat - 48)
  else if 97 ≤ c.toNat && c.toNat ≤ 102 then some (c.toNat - 87)
  else if 65 ≤ c.toNat && c.toNat ≤ 70 then some (c.toNat - 55)
  else none

/-- Decoded character of a single-character JSON escape, by the escape
letter's code point. -/
def escCharOf (e : Char) : Option Char :=
  if e.toNat = 34 then some '"'
  else if e.toNat = 92 then some '\\'
  else if e.toNat = 47 then some '/'
  else if e.toNat = 110 then some '\n'
  else if e.toNat = 116 then some '\t'
  else if e.toNat = 114 then some '\r'
  else if e.toNat = 98 then some (Char.ofNat 8)
  else if e.toNat = 102 then some (Char.ofNat 12)
  else none

/-- Parser for what follows a backslash inside a JSON string literal: a
4-digit `\u` escape (code point 117 is `u`) or a named escape; returns the
decoded character and the remaining input. -/
def parseEscSeq : List Char → Option (Char × List Char)
  | e :: rest2 =>
    if e.toNat = 117 then
      match rest2 with
      | h1 :: h2 :: h3 :: h4 :: rest3 =>
        match hexVal h1, hexVal h2, hexVal h3, hexVal h4 with
        | some a, some b, some c, some d =>
          some (Char.ofNat (4096 * a + 256 * b + 16 * c + d), rest3)
        | _, _, _, _ => none
      | _ => none
    else
      match escCharOf e with
      | some ec => some (ec, rest2)
      | none => none
  | [] => none

/-- Fuel-driven parser for the body of a JSON string literal after its
opening quote (code points: 34 is the quote, 92 the backslash): the decoded
characters up to the closing quote and the remaining input.  One unit of
fuel is spent per decoded character, so fuel exceeding the decoded length
suffices. -/
def parseStrChars : Nat → List Char → Option (List Char × List Char)
  | 0, _ => none
  | _ + 1, [] => none
  | fuel + 1, c :: rest =>
    if c.toNat = 34 then some ([], rest)
    else if c.toNat = 92 then
      match parseEscSeq rest with
      | none => none
      | some (ec, rest2) => (parseStrChars fuel rest2).map (fun p => (ec :: p.1, p.2))
    else (parseStrChars fuel rest).map (fun p => (c :: p.1, p.2))

/-- Maximal run of decimal digits, folded onto an accumulator. -/
def parseDigitsAcc : Nat → List Char → Nat × List Char
  | acc, c :: rest =>
    if isDigitC c then parseDigitsAcc (acc * 10 + digitVal c) rest else (acc, c :: rest)
  | acc, [] => (acc, [])

/-- Parser for an optionally signed decimal integer (code point 45 is the
minus sign). -/
def parseIntJ : List Char → Option (Int × List Char)
  | c :: rest =>
    if c.toNat = 45 then
      match rest with
      | d :: rest2 =>
        if isDigitC d then
          let p := parseDigitsAcc (digitVal d) rest2
          some (-(p.1 : Int), p.2)
        else none
      | [] => none
    else if isDigitC c then
      let p := parseDigitsAcc (digitVal c) rest
      some ((p.1 : Int), p.2)
    else none
  | [] => none

/-- String-literal body parser with its fuel fixed to the input length,
which always suffices since each decoded character consumes at least one
input character. -/
def parseStr (cs : List Char) : Option (List Char × List Char) :=
  parseStrChars cs.length cs

/-- Three expected characters, given by code points. -/
def parseLit3 (a b c : Nat) : List Char → Option (List Char)
  | x :: y :: z :: r => if x.toNat = a && y.toNat = b && z.toNat = c then some r else none
  | _ => none

/-- Four expected characters, given by code points. -/
def parseLit4 (a b c d : Nat) : List Char → Option (List Char)
  | x :: y :: z :: w :: r =>
    if x.toNat = a && y.toNat = b && z.toNat = c && w.toNat = d then some r else none
  | _ => none

mutual

/-- Fuel-driven parser for the canonical output of `dumps`: one JSON value
and the remaining input.  Dispatches on the first character's code point
(110 `n`, 116 `t`, 102 `f`, 34 the quote, 91 the bracket, 123 the brace,
45 the minus sign). -/
def parseVal (fuel : Nat) (cs : List Char) : Option (Json × List Char) :=
  match fuel, cs with
  | 0, _ => none
  | _ + 1, [] => none
  | fuel + 1, c :: rest =>
    if c.toNat = 110 then
      match parseLit3 117 108 108 rest with
      | some r => some (Json.null, r)
      | none => none
    else if c.toNat = 116 then
      match parseLit3 114 117 101 rest with
      | some r => some (Json.bool true, r)
      | none => none
    else if c.toNat = 102 then
      match parseLit4 97 108 115 101 rest with
      | some r => some (Json.bool false, r)
      | none => none
    else if c.toNat = 34 then
      (parseStr rest).map (fun p => (Json.str (String.mk p.1), p.2))
    else if c.toNat = 91 then
      (parseElems fuel rest).map (fun p => (Json.arr p.1, p.2))
    else if c.toNat = 123 then
      (parseItems fuel rest).map (fun p => (Json.obj p.1, p.2))
    else if c.toNat = 45 || isDigitC c then
      (parseIntJ (c :: rest)).map (fun p => (Json.int p.1, p.2))
    else none
  termination_by (fuel, 0)

/-- Elements of an array up to and including the closing bracket (code
point 93; 44 is the comma, 32 the space of the item separator). -/
def parseElems (fuel : Nat) (cs : List Char) : Option (List Json × List Char) :=
  match fuel, cs with
  | 0, _ => none
  | _ + 1, [] => none
  | fuel + 1, c :: rest =>
    if c.toNat = 93 then some ([], rest)
    else
      match parseVal (fuel + 1) (c :: rest) with
      | none => none
      | some (j, r1) =>
        match r1 with
        | [] => none
        | c1 :: r2 =>
          if c1.toNat = 93 then some ([j], r2)
          else if c1.toNat = 44 then
            match r2 with
            | c2 :: r3 =>
              if c2.toNat = 32 then
                match parseElems fuel r3 with
                | none => none
                | some (t, r4) => some (j :: t, r4)
              else none
            | [] => none
          else none
  termination_by (fuel, 1)

/-- Items of an object up to and including the closing brace (code point
125; 58 is the colon of the key separator). -/
def parseItems (fuel : Nat) (cs : List Char) : Option (List (String × Json) × List Char) :=
  match fuel, cs with
  | 0, _ => none
  | _ + 1, [] => none
  | fuel + 1, c :: rest =>
    if c.toNat = 125 then some ([], rest)
    else if c.toNat = 34 then
      match parseStr rest with
      | none => none
      | some (kcs, r1) =>
        match r1 with
        | c1 :: r2 =>
          if c1.toNat = 58 then
            match r2 with
            | c2 :: r3 =>
              if c2.toNat = 32 then
                match parseVal (fuel + 1) r3 with
                | none => none
                | some (v, r4) =>
                  match r4 with
                  | c3 :: r5 =>
                    if c3.toNat = 125 then some ([(String.mk kcs, v)], r5)
                    else if c3.toNat = 44 then
                      match r5 with
                      | c4 :: r6 =>
                        if c4.toNat = 32 then
                          match parseItems fuel r6 with
                          | none => none
                          | some (t, r7) => some ((String.mk kcs, v) :: t, r7)
                        else none
                      | [] => none
                    else none
                  | [] => none
              else none
            | [] => none
          else none
        | [] => none
    else none
  termination_by (fuel, 2)

end

/-- Python `json.loads` restricted to the canonical form `dumps` emits: the
parse must consume the whole string.  The fuel bound is sufficient for every
`dumps` output (proved below). -/
def parseJson (s : String) : Option Json :=
  match parseVal (2 * s.length + 2) s.data with
  | some (j, []) => some j
  | _ => none

mutual

/-- Structural size measure used as parser fuel in the round-trip proof. -/
def jsize : Json → Nat
  | Json.null => 1
  | Json.bool _ => 1
  | Json.int _ => 1
  | Json.str _ => 1
  | Json.arr l => 1 + jsizeL l
  | Json.obj l => 1 + jsizeO l

/-- Size of an array's element list. -/
def jsizeL : List Json → Nat
  | [] => 1
  | a :: t => 1 + jsize a + jsizeL t

/-- Size of an object's item list. -/
def jsizeO : List (String × Json) → Nat
  | [] => 1
  | (_, v) :: t => 1 + jsize v + jsizeO t

end

/-- Definition following the spec's words, for comparison with the code's
parser: a creation timestamp matches the fixed format
`YYYY-MM-DDThh:mm:ssZ` when it is exactly twenty characters with decimal
digits in the `Y`, `M`, `D`, `h`, `m`, `s` positions and the literal
separators in theirs. -/
def specFixedFormat (ts : String) : Bool :=
  match ts.data with
  | [y1, y2, y3, y4, s1, m1, m2, s2, d1, d2, s3, h1, h2, s4, mi1, mi2, s5, se1, se2, s6] =>
    isDigitC y1 && isDigitC y2 && isDigitC y3 && isDigitC y4 &&
    s1.toNat = 45 && isDigitC m1 && isDigitC m2 && s2.toNat = 45 &&
    isDigitC d1 && isDigitC d2 && s3.toNat = 84 && isDigitC h1 && isDigitC h2 &&
    s4.toNat = 58 && isDigitC mi1 && isDigitC mi2 && s5.toNat = 58 &&
    isDigitC se1 && isDigitC se2 && s6.toNat = 90
  | _ => false

/-- Numeric field values of a timestamp in the strict fixed format, when it
has that shape. -/
def tsFieldVals (ts : String) : Option (Nat × Nat × Nat × Nat × Nat × Nat) :=
  match ts.data with
  | [y1, y2, y3, y4, s1, m1, m2, s2, d1, d2, s3, h1, h2, s4, mi1, mi2, s5, se1, se2, s6] =>
    if isDigitC y1 && isDigitC y2 && isDigitC y3 && isDigitC y4 &&
        s1.toNat = 45 && isDigitC m1 && isDigitC m2 && s2.toNat = 45 &&
        isDigitC d1 && isDigitC d2 && s3.toNat = 84 && isDigitC h1 && isDigitC h2 &&
        s4.toNat = 58 && isDigitC mi1 && isDigitC mi2 && s5.toNat = 58 &&
        isDigitC se1 && isDigitC se2 && s6.toNat = 90 then
      some (1000 * digitVal y1 + 100 * digitVal y2 + 10 * digitVal y3 + digitVal y4,
        10 * digitVal m1 + digitVal m2,
        10 * digitVal d1 + digitVal d2,
        10 * digitVal h1 + digitVal h2,
        10 * digitVal mi1 + digitVal mi2,
        10 * digitVal se1 + digitVal se2)
    else none
  | _ => none

lemma send_of_build_error (s : Settings) (e : Event) (t : TransportResult) (pe : PyErr)
    (hb : buildRequest s e = Except.error pe) :
    send_to_dojo s e t = (none, Outcome.failure (HandlerErr.py pe)) := by
  simp [send_to_dojo, hb]

lemma build_ok_of_sent (s : Settings) (e : Event) (t : TransportResult) (req : HttpRequest)
    (h : (send_to_dojo s e t).1 = some req) : buildRequest s e = Except.ok req := by
  cases hb : buildRequest s e with
  | error pe => simp [send_to_dojo, hb] at h
  | ok r =>
    cases t with
    | exn m => simp [send_to_dojo, hb] at h; rw [h]
    | response status reason content =>
      cases hr : raise_for_status status reason r.url with
      | some msg => simp [send_to_dojo, hb, hr] at h; rw [h]
      | none => simp [send_to_dojo, hb, hr] at h; rw [h]

lemma buildRequest_ok_shape (s : Settings) (e : Event) (req : HttpRequest)
    (hb : buildRequest s e = Except.ok req) :
    ∃ dtA dtB nspace kind container nm serverJ repoJ tagJ digestJ repoJ2,
      pyStrptimeTs e.meta.creationTimestamp = Except.ok dtA ∧
      pyStrptimeTs e.meta.creationTimestamp = Except.ok dtB ∧
      labelsGet e.meta.labels nsLabelKey = Except.ok nspace ∧
      labelsGet e.meta.labels kindLabelKey = Except.ok kind ∧
      labelsGet e.meta.labels containerLabelKey = Except.ok container ∧
      resource_name kind e.meta.labels = Except.ok nm ∧
      reportPath e "registry" "server" = Except.ok serverJ ∧
      reportPath e "artifact" "repository" = Except.ok repoJ ∧
      reportPath e "arficat" "tag" = Except.ok tagJ ∧
      reportPath e "artifact" "digest" = Except.ok digestJ ∧
      reportPath e "artifact" "repository" = Except.ok repoJ2 ∧
      req = { url := s.DEFECT_DOJO_URL ++ "/api/v2/reimport-scan/"
              headers := [("Authorization", "Token " ++ s.DEFECT_DOJO_API_KEY),
                ("Accept", "application/json")]
              data := [("active", s.DEFECT_DOJO_ACTIVE),
                ("verified", s.DEFECT_DOJO_VERIFIED),
                ("scan_date", fmtDate dtA),
                ("close_old_findings", s.DEFECT_DOJO_CLOSE_OLD_FINDINGS_PRODUCT_SCOPE),
                ("close_old_findings_product_scope", s.DEFECT_DOJO_CLOSE_OLD_FINDINGS_PRODUCT_SCOPE),
                ("minimum_severity", s.DEFECT_DOJO_MINIMUM_SEVERITY),
                ("auto_create_context", s.DEFECT_DOJO_AUTO_CREATE_CONTEXT),
                ("deduplication_on_engagement", s.DEFECT_DOJO_DEDUPLICATION_ON_ENGAGEMENT),
                ("do_not_reactivate", s.DEFECT_DOJO_DO_NOT_REACTIVATE),
                ("scan_type", "Trivy Operator Scan"),
                ("engagement_name", "FedRamp Audit - " ++ monthName dtB.month),
                ("environment", s.DEFECT_DOJO_ENVIRONMENT),
                ("product_name", s.DEFECT_DOJO_PRODUCT_NAME),
                ("product_type_name", s.DEFECT_DOJO_PRODUCT_TYPE_NAME),
                ("group_by", s.DEFECT_DOJO_GROUP_BY),
                ("test_title", e.meta.name),
                ("service", nspace ++ "__" ++ kind ++ "__" ++ nm ++ "__" ++ container ++ "__" ++ pyStr repoJ2),
                ("version", pyStr tagJ),
                ("tags", "image_digest=" ++ pyStr digestJ)]
              fileName := "report.json"
              fileContent := dumps (Json.obj (full_object e.body))
              verifyTls := false } := by
  simp only [buildRequest] at hb
  repeat' split at hb
  any_goals exact Except.noConfusion hb
  injection hb with h
  rename_i x10 dtA h10 x9 dtB h9 x8 nsv h8 x7 kd h7 x6 ct h6 x5 nm h5 x4 sv h4 x3 rp h3 x2 tg h2 x1 dg h1 x0 rp2 h0
  injection h9 with h9e
  subst h9e
  injection h0 with h0e
  subst h0e
  exact ⟨dtA, dtA, nsv, kd, ct, nm, sv, rp, tg, dg, rp, h10, h10, h8, h7, h6, h5, h4, h3, h2, h1, h3, h.symm⟩

lemma hasLabel_of_get_ok (e : Event) (k v : String)
    (h : labelsGet e.meta.labels k = Except.ok v) : hasLabel e k = true := by
  unfold labelsGet at h
  unfold hasLabel
  cases hf : e.meta.labels.find? (fun p => p.1 == k) with
  | none => rw [hf] at h; exact Except.noConfusion h
  | some p => simp

lemma resource_name_ok_label (kind : String) (labels : List (String × String)) (nm : String)
    (h : resource_name kind labels = Except.ok nm) :
    labelsGet labels nameLabelKey = Except.ok nm := by
  unfold resource_name at h
  split at h
  · exact Except.noConfusion h
  · exact h

/-- C1: the claim says a `ReplicaSet` event's derived resourceName is the
name label with its final hyphen-delimited token removed (so label
`web-7d8f9c9b5` gives `web`).  The code cannot produce this: line 77 reads
`input.operatorObject...` where `input` is the Python builtin, so every
`ReplicaSet` event makes the handler raise `AttributeError` before any
name is derived (the name label is present, as the first conjunct shows),
and no request is built. -/
theorem c1_replicaset_attribute_error :
    labelsGet replicaSetEvent.meta.labels nameLabelKey = Except.ok "web-7d8f9c9b5" ∧
      send_to_dojo sampleSettings replicaSetEvent (TransportResult.response 200 "OK" "imported")
        = (none, Outcome.failure (HandlerErr.py (PyErr.attributeError "operatorObject"))) :=
  ⟨rfl, rfl⟩

/-- C2: the claim says the payload's version field is the artifact tag read
from `body.report.artifact.tag`.  Line 82 actually reads
`body["report"]["arficat"]["tag"]` (a typo), so on an event whose report is
shaped exactly as the spec documents (the artifact tag is present, first
conjunct) the handler raises `KeyError: arficat` and builds no payload at
all. -/
theorem c2_arficat_key_error :
    reportPath specShapedEvent "artifact" "tag" = Except.ok (Json.str "1.25.3") ∧
      send_to_dojo sampleSettings specShapedEvent (TransportResult.response 200 "OK" "imported")
        = (none, Outcome.failure (HandlerErr.py (PyErr.keyError "arficat"))) :=
  ⟨rfl, rfl⟩

/-- C3 (amended): an event missing any of the four required labels aborts
the handler before any HTTP request is issued, but the escaping error is a
plain `KeyError`/`AttributeError`-style exception, not a
`kopf.PermanentError`, so it is not surfaced as a non-retryable failure as
the claim states. -/
theorem c3_missing_label_aborts_before_post (s : Settings) (e : Event) (t : TransportResult)
    (k : String) (hk : k ∈ requiredLabelKeys) (hmiss : hasLabel e k = false) :
    (send_to_dojo s e t).1 = none ∧
      ∃ err, (send_to_dojo s e t).2 = Outcome.failure err ∧ err.isPermanent = false := by
  cases hb : buildRequest s e with
  | error pe =>
    rw [send_of_build_error s e t pe hb]
    exact ⟨rfl, HandlerErr.py pe, rfl, rfl⟩
  | ok req =>
    exfalso
    obtain ⟨dtA, dtB, nsv, kd, ct, nm, sv, rp, tg, dg, rp2, _, _, h8, h7, h6, h5, _, _, _, _, _, _⟩ :=
      buildRequest_ok_shape s e req hb
    have hname := resource_name_ok_label kd e.meta.labels nm h5
    fin_cases hk
    · rw [hasLabel_of_get_ok e _ _ h8] at hmiss; exact Bool.noConfusion hmiss
    · rw [hasLabel_of_get_ok e _ _ h7] at hmiss; exact Bool.noConfusion hmiss
    · rw [hasLabel_of_get_ok e _ _ h6] at hmiss; exact Bool.noConfusion hmiss
    · rw [hasLabel_of_get_ok e _ _ hname] at hmiss; exact Bool.noConfusion hmiss

/-- C3 witness: the amended theorem applied to a concrete event missing the
namespace label. -/
theorem c3_missing_label_witness :
    (send_to_dojo sampleSettings missingNamespaceEvent
        (TransportResult.response 200 "OK" "imported")).1 = none ∧
      ∃ err, (send_to_dojo sampleSettings missingNamespaceEvent
          (TransportResult.response 200 "OK" "imported")).2 = Outcome.failure err ∧
        err.isPermanent = false :=
  c3_missing_label_aborts_before_post sampleSettings missingNamespaceEvent
    (TransportResult.response 200 "OK" "imported") nsLabelKey (by decide) (by decide)

/-- C3 counterexample: on a concrete event missing the namespace label the
handler fails with a plain `KeyError` and the outcome is not surfaced as
non-retryable, contradicting the claim that such failures reach the
framework as non-retryable. -/
theorem c3_missing_label_not_nonretryable :
    send_to_dojo sampleSettings missingNamespaceEvent (TransportResult.response 200 "OK" "imported")
        = (none, Outcome.failure (HandlerErr.py (PyErr.keyError "trivy-operator.resource.namespace"))) ∧
      surfacedNonRetryable (send_to_dojo sampleSettings missingNamespaceEvent
        (TransportResult.response 200 "OK" "imported")).2 = false :=
  ⟨rfl, rfl⟩

/-- C4 (amended): whenever the handler actually posts a request, the
`service` form field is exactly the five derived segments namespace, kind,
resource name, container and repository joined by double underscores.  (For
a body shaped exactly as documented no request is ever posted; see the C4
counterexample and C2.) -/
theorem c4_service_five_segments (s : Settings) (e : Event) (t : TransportResult)
    (req : HttpRequest) (hsent : (send_to_dojo s e t).1 = some req) :
    ∃ nspace kind nm container repoJ,
      labelsGet e.meta.labels nsLabelKey = Except.ok nspace ∧
      labelsGet e.meta.labels kindLabelKey = Except.ok kind ∧
      resource_name kind e.meta.labels = Except.ok nm ∧
      labelsGet e.meta.labels containerLabelKey = Except.ok container ∧
      reportPath e "artifact" "repository" = Except.ok repoJ ∧
      formLookup req.data "service"
        = some (nspace ++ "__" ++ kind ++ "__" ++ nm ++ "__" ++ container ++ "__" ++ pyStr repoJ) := by
  have hb := build_ok_of_sent s e t req hsent
  obtain ⟨dtA, dtB, nsv, kd, ct, nm, sv, rp, tg, dg, rp2, _, _, h8, h7, h6, h5, _, _, _, _, h11, hreq⟩ :=
    buildRequest_ok_shape s e req hb
  subst hreq
  exact ⟨nsv, kd, nm, ct, rp2, h8, h7, h5, h6, h11, rfl⟩

/-- C4 witness: the amended theorem applied to a concrete event on which the
build completes. -/
theorem c4_service_witness :
    ∃ nspace kind nm container repoJ,
      labelsGet goodEvent.meta.labels nsLabelKey = Except.ok nspace ∧
      labelsGet goodEvent.meta.labels kindLabelKey = Except.ok kind ∧
      resource_name kind goodEvent.meta.labels = Except.ok nm ∧
      labelsGet goodEvent.meta.labels containerLabelKey = Except.ok container ∧
      reportPath goodEvent "artifact" "repository" = Except.ok repoJ ∧
      formLookup goodRequest.data "service"
        = some (nspace ++ "__" ++ kind ++ "__" ++ nm ++ "__" ++ container ++ "__" ++ pyStr repoJ) :=
  c4_service_five_segments sampleSettings goodEvent (TransportResult.response 201 "Created" "imported")
    goodRequest rfl

/-- C4 counterexample: on a well-formed event shaped exactly as the spec
documents, no payload (and hence no `service` field) is produced at all:
the build dies on the mistyped `arficat` lookup. -/
theorem c4_no_payload_for_documented_shape :
    (send_to_dojo sampleSettings specShapedEvent4 (TransportResult.response 200 "OK" "imported")).1
        = none ∧
      (send_to_dojo sampleSettings specShapedEvent4 (TransportResult.response 200 "OK" "imported")).2
        = Outcome.failure (HandlerErr.py (PyErr.keyError "arficat")) :=
  ⟨rfl, rfl⟩

/-- C6: for a resource kind different from `ReplicaSet` the derived resource
name is the raw value of the resource-name label, unchanged. -/
theorem c6_name_identity_for_non_replicaset (kind : String) (labels : List (String × String))
    (n : String) (hkind : kind ≠ "ReplicaSet")
    (hname : labelsGet labels nameLabelKey = Except.ok n) :
    resource_name kind labels = Except.ok n := by
  unfold resource_name
  rw [if_neg]
  · exact hname
  · simp [hkind]

/-- C6 witness: identity law at a concrete kind and label value. -/
theorem c6_name_identity_witness :
    resource_name "Deployment" [(nameLabelKey, "web")] = Except.ok "web" :=
  c6_name_identity_for_non_replicaset "Deployment" [(nameLabelKey, "web")] "web" (by decide) rfl

/-- C7 (amended): every 4xx or 5xx response is classified as a permanent,
non-retryable rejection whose diagnostic message carries the `HTTPError`
status line and the response body.  (A non-2xx status outside 400-599 is
not rejected; see the C7 counterexample.) -/
theorem c7_http_error_permanent (s : Settings) (e : Event) (status : Nat)
    (reason content : String) (req : HttpRequest) (h4 : 400 ≤ status) (h6 : status < 600)
    (hsent : (send_to_dojo s e (TransportResult.response status reason content)).1 = some req) :
    ∃ httpMsg, raise_for_status status reason req.url = some httpMsg ∧
      (send_to_dojo s e (TransportResult.response status reason content)).2
        = Outcome.failure (HandlerErr.permanentError
            ("HTTP error occurred: " ++ httpMsg ++ " - " ++ content)) ∧
      surfacedNonRetryable
        (send_to_dojo s e (TransportResult.response status reason content)).2 = true := by
  have hb := build_ok_of_sent s e _ req hsent
  have hrs : ∃ m, raise_for_status status reason req.url = some m := by
    unfold raise_for_status
    by_cases hc : status < 500
    · rw [if_pos (by simp [h4, hc])]
      exact ⟨_, rfl⟩
    · rw [if_neg (by simp [hc]), if_pos (by simp [h6]; omega)]
      exact ⟨_, rfl⟩
  obtain ⟨m, hm⟩ := hrs
  refine ⟨m, hm, ?_, ?_⟩ <;>
    simp [send_to_dojo, hb, hm, surfacedNonRetryable, HandlerErr.isPermanent]

/-- C7 witness: a concrete HTTP 500 response is rejected permanently with
the response body preserved in the diagnostic message. -/
theorem c7_http_500_witness :
    ∃ httpMsg, raise_for_status 500 "Internal Server Error" goodRequest.url = some httpMsg ∧
      (send_to_dojo sampleSettings goodEvent
          (TransportResult.response 500 "Internal Server Error" "report import failed")).2
        = Outcome.failure (HandlerErr.permanentError
            ("HTTP error occurred: " ++ httpMsg ++ " - " ++ "report import failed")) ∧
      surfacedNonRetryable (send_to_dojo sampleSettings goodEvent
          (TransportResult.response 500 "Internal Server Error" "report import failed")).2 = true :=
  c7_http_error_permanent sampleSettings goodEvent 500 "Internal Server Error"
    "report import failed" goodRequest (by decide) (by decide) rfl

/-- C7 counterexample: a non-2xx final response with status 300 raises
nothing in `raise_for_status`, so the submission is treated as success, not
as a permanent rejection as the claim states for every non-2xx status. -/
theorem c7_status_300_not_rejected :
    (send_to_dojo sampleSettings goodEvent
        (TransportResult.response 300 "Multiple Choices" "ignored")).2 = Outcome.success :=
  rfl

/-- C8: a transport exception raised by the POST is classified as a
permanent, non-retryable failure carrying the exception text; the request
was attempted exactly once and the error is not swallowed. -/
theorem c8_transport_error_permanent (s : Settings) (e : Event) (req : HttpRequest) (m : String)
    (hb : buildRequest s e = Except.ok req) :
    (send_to_dojo s e (TransportResult.exn m)).1 = some req ∧
      (send_to_dojo s e (TransportResult.exn m)).2
        = Outcome.failure (HandlerErr.permanentError ("Other error occurred: " ++ m)) ∧
      surfacedNonRetryable (send_to_dojo s e (TransportResult.exn m)).2 = true := by
  simp [send_to_dojo, hb, surfacedNonRetryable, HandlerErr.isPermanent]

/-- C8 witness: a concrete connection-refused condition surfaces as a
permanent error carrying the exception text. -/
theorem c8_transport_error_witness :
    (send_to_dojo sampleSettings goodEvent (TransportResult.exn "ConnectionError(refused)")).1
        = some goodRequest ∧
      (send_to_dojo sampleSettings goodEvent (TransportResult.exn "ConnectionError(refused)")).2
        = Outcome.failure (HandlerErr.permanentError
            ("Other error occurred: " ++ "ConnectionError(refused)")) ∧
      surfacedNonRetryable
        (send_to_dojo sampleSettings goodEvent (TransportResult.exn "ConnectionError(refused)")).2
        = true :=
  c8_transport_error_permanent sampleSettings goodEvent goodRequest "ConnectionError(refused)" rfl

/-- C10: in every request the handler posts, the `close_old_findings` and
`close_old_findings_product_scope` form fields carry the same value, both
sourced from the single configuration setting
`DEFECT_DOJO_CLOSE_OLD_FINDINGS_PRODUCT_SCOPE`. -/
theorem c10_close_old_findings_same (s : Settings) (e : Event) (t : TransportResult)
    (req : HttpRequest) (hsent : (send_to_dojo s e t).1 = some req) :
    formLookup req.data "close_old_findings"
        = formLookup req.data "close_old_findings_product_scope" ∧
      formLookup req.data "close_old_findings"
        = some s.DEFECT_DOJO_CLOSE_OLD_FINDINGS_PRODUCT_SCOPE := by
  have hb := build_ok_of_sent s e t req hsent
  obtain ⟨dtA, dtB, nsv, kd, ct, nm, sv, rp, tg, dg, rp2, _, _, _, _, _, _, _, _, _, _, _, hreq⟩ :=
    buildRequest_ok_shape s e req hb
  subst hreq
  exact ⟨rfl, rfl⟩

/-- C10 witness: the two fields agree on a concrete posted request. -/
theorem c10_close_old_findings_witness :
    formLookup goodRequest.data "close_old_findings"
        = formLookup goodRequest.data "close_old_findings_product_scope" ∧
      formLookup goodRequest.data "close_old_findings"
        = some sampleSettings.DEFECT_DOJO_CLOSE_OLD_FINDINGS_PRODUCT_SCOPE :=
  c10_close_old_findings_same sampleSettings goodEvent (TransportResult.response 200 "OK" "imported")
    goodRequest rfl

lemma digitChar_toNat (n : Nat) (h : n < 10) : (digitChar n).toNat = 48 + n := by
  have hv : (48 + n).isValidChar := Or.inl (by omega)
  simp [digitChar, Char.ofNat, hv]
  rfl

lemma digitChar_digitVal (c : Char) (h : isDigitC c = true) : digitChar (digitVal c) = c := by
  have hc : 48 ≤ c.toNat ∧ c.toNat ≤ 57 := by simpa [isDigitC] using h
  have : 48 + digitVal c = c.toNat := by simp [digitVal]; omega
  rw [digitChar, this, Char.ofNat_toNat]

lemma numCharsAux_congr (f1 : Nat) : ∀ f2 n, n < f1 → n < f2 →
    numCharsAux f1 n = numCharsAux f2 n := by
  induction f1 with
  | zero => intro f2 n h; omega
  | succ f ih =>
    intro f2 n h1 h2
    cases f2 with
    | zero => omega
    | succ g =>
      by_cases hn : n < 10
      · simp [numCharsAux, hn]
      · have hd : n / 10 < n := Nat.div_lt_self (by omega) (by omega)
        simp only [numCharsAux, if_neg hn]
        rw [ih g (n / 10) (by omega) (by omega)]

lemma numChars_lt (n : Nat) (h : n < 10) : numChars n = [digitChar n] := by
  simp [numChars, numCharsAux, h]

lemma numChars_ge (n : Nat) (h : 10 ≤ n) :
    numChars n = numChars (n / 10) ++ [digitChar (n % 10)] := by
  have hd : n / 10 < n := Nat.div_lt_self (by omega) (by omega)
  simp only [numChars, numCharsAux, if_neg (by omega : ¬ n < 10)]
  rw [numCharsAux_congr n (n / 10 + 1) (n / 10) (by omega) (by omega)]
  rfl

lemma numChars_two (n : Nat) (h1 : 10 ≤ n) (h2 : n < 100) :
    numChars n = [digitChar (n / 10), digitChar (n % 10)] := by
  rw [numChars_ge n h1, numChars_lt (n / 10) (by omega)]
  rfl

lemma numChars_four (n : Nat) (h1 : 1000 ≤ n) (h2 : n < 10000) :
    numChars n = [digitChar (n / 1000), digitChar (n / 100 % 10),
      digitChar (n / 10 % 10), digitChar (n % 10)] := by
  rw [numChars_ge n (by omega)]
  rw [numChars_ge (n / 10) (by omega)]
  rw [numChars_two (n / 10 / 10) (by omega) (by omega)]
  simp [Nat.div_div_eq_div_mul]

lemma pad2_chars (m1 m2 : Char) (v : Nat) (h1 : isDigitC m1 = true) (h2 : isDigitC m2 = true)
    (hv : v = 10 * digitVal m1 + digitVal m2) : (pad2 v).data = [m1, m2] := by
  have a1 : 48 ≤ m1.toNat ∧ m1.toNat ≤ 57 := by simpa [isDigitC] using h1
  have a2 : 48 ≤ m2.toNat ∧ m2.toNat ≤ 57 := by simpa [isDigitC] using h2
  by_cases hsmall : v < 10
  · have hm1 : m1.toNat = 48 := by simp [digitVal] at hv; omega
    have hm1' : m1 = '0' := by
      have := Char.ofNat_toNat m1
      rw [hm1] at this
      exact this.symm
    have hv2 : v = digitVal m2 := by simp [digitVal] at hv ⊢; omega
    rw [pad2, if_pos hsmall, hv2, natStr, numChars_lt (digitVal m2) (by simp [digitVal]; omega),
      digitChar_digitVal m2 h2]
    simp [String.data, hm1']
  · have hq : v / 10 = digitVal m1 := by simp [digitVal] at hv ⊢; omega
    have hr : v % 10 = digitVal m2 := by simp [digitVal] at hv ⊢; omega
    rw [pad2, if_neg hsmall, natStr, numChars_two v (by omega) (by simp [digitVal] at hv; omega),
      hq, hr, digitChar_digitVal m1 h1, digitChar_digitVal m2 h2]

lemma numChars_four_chars (y1 y2 y3 y4 : Char) (y : Nat)
    (h1 : isDigitC y1 = true) (h2 : isDigitC y2 = true) (h3 : isDigitC y3 = true)
    (h4 : isDigitC y4 = true)
    (hy : y = 1000 * digitVal y1 + 100 * digitVal y2 + 10 * digitVal y3 + digitVal y4)
    (h1000 : 1000 ≤ y) : numChars y = [y1, y2, y3, y4] := by
  have a1 : 48 ≤ y1.toNat ∧ y1.toNat ≤ 57 := by simpa [isDigitC] using h1
  have a2 : 48 ≤ y2.toNat ∧ y2.toNat ≤ 57 := by simpa [isDigitC] using h2
  have a3 : 48 ≤ y3.toNat ∧ y3.toNat ≤ 57 := by simpa [isDigitC] using h3
  have a4 : 48 ≤ y4.toNat ∧ y4.toNat ≤ 57 := by simpa [isDigitC] using h4
  have hq1 : y / 1000 = digitVal y1 := by simp [digitVal] at hy ⊢; omega
  have hq2 : y / 100 % 10 = digitVal y2 := by simp [digitVal] at hy ⊢; omega
  have hq3 : y / 10 % 10 = digitVal y3 := by simp [digitVal] at hy ⊢; omega
  have hq4 : y % 10 = digitVal y4 := by simp [digitVal] at hy ⊢; omega
  rw [numChars_four y h1000 (by simp [digitVal] at hy; omega), hq1, hq2, hq3, hq4,
    digitChar_digitVal y1 h1, digitChar_digitVal y2 h2, digitChar_digitVal y3 h3,
    digitChar_digitVal y4 h4]

lemma parseYearF_strict (y1 y2 y3 y4 : Char) (rest : List Char)
    (h1 : isDigitC y1 = true) (h2 : isDigitC y2 = true) (h3 : isDigitC y3 = true)
    (h4 : isDigitC y4 = true) :
    parseYearF (y1 :: y2 :: y3 :: y4 :: rest) =
      some (1000 * digitVal y1 + 100 * digitVal y2 + 10 * digitVal y3 + digitVal y4, rest) := by
  simp [parseYearF, h1, h2, h3, h4]

lemma parseMonthF_strict (m1 m2 : Char) (rest : List Char) (mo : Nat)
    (h1 : isDigitC m1 = true) (h2 : isDigitC m2 = true)
    (hmo : mo = 10 * digitVal m1 + digitVal m2) (hlo : 1 ≤ mo) (hhi : mo ≤ 12) :
    parseMonthF (m1 :: m2 :: rest) = some (mo, rest) := by
  have a1 : 48 ≤ m1.toNat ∧ m1.toNat ≤ 57 := by simpa [isDigitC] using h1
  have a2 : 48 ≤ m2.toNat ∧ m2.toNat ≤ 57 := by simpa [isDigitC] using h2
  simp only [digitVal] at hmo
  by_cases hc1 : m1.toNat = 48
  · have hne : m2.toNat ≠ 48 := by omega
    simp [parseMonthF, hc1, h2, hne, digitVal]
    omega
  · have hc2 : m1.toNat = 49 := by omega
    have hle : 48 ≤ m2.toNat ∧ m2.toNat ≤ 50 := by omega
    simp [parseMonthF, hc1, hc2, hle.1, hle.2, digitVal]
    omega

lemma parseDayF_strict (d1 d2 : Char) (rest : List Char) (d : Nat)
    (h1 : isDigitC d1 = true) (h2 : isDigitC d2 = true)
    (hd : d = 10 * digitVal d1 + digitVal d2) (hlo : 1 ≤ d) (hhi : d ≤ 31) :
    parseDayF (d1 :: d2 :: rest) = some (d, rest) := by
  have a1 : 48 ≤ d1.toNat ∧ d1.toNat ≤ 57 := by simpa [isDigitC] using h1
  have a2 : 48 ≤ d2.toNat ∧ d2.toNat ≤ 57 := by simpa [isDigitC] using h2
  simp only [digitVal] at hd
  by_cases hc3 : d1.toNat = 51
  · have : d2.toNat = 48 ∨ d2.toNat = 49 := by omega
    simp [parseDayF, hc3, this, digitVal]
    omega
  · by_cases hc12 : d1.toNat = 49 ∨ d1.toNat = 50
    · simp [parseDayF, hc3, hc12, h2, digitVal]
      omega
    · have hc0 : d1.toNat = 48 := by omega
      have hne : d2.toNat ≠ 48 := by omega
      simp [parseDayF, hc3, hc12, hc0, h2, hne, digitVal]
      omega

lemma parseHourF_strict (h1c h2c : Char) (rest : List Char) (h : Nat)
    (h1 : isDigitC h1c = true) (h2 : isDigitC h2c = true)
    (hh : h = 10 * digitVal h1c + digitVal h2c) (hhi : h ≤ 23) :
    parseHourF (h1c :: h2c :: rest) = some (h, rest) := by
  have a1 : 48 ≤ h1c.toNat ∧ h1c.toNat ≤ 57 := by simpa [isDigitC] using h1
  have a2 : 48 ≤ h2c.toNat ∧ h2c.toNat ≤ 57 := by simpa [isDigitC] using h2
  simp only [digitVal] at hh
  by_cases hc2 : h1c.toNat = 50
  · have : 48 ≤ h2c.toNat ∧ h2c.toNat ≤ 51 := by omega
    simp [parseHourF, hc2, this.1, this.2, digitVal]
    omega
  · have hc01 : h1c.toNat = 48 ∨ h1c.toNat = 49 := by omega
    simp [parseHourF, hc2, hc01, h2, digitVal]
    omega

lemma parseMinF_strict (m1 m2 : Char) (rest : List Char) (v : Nat)
    (h1 : isDigitC m1 = true) (h2 : isDigitC m2 = true)
    (hv : v = 10 * digitVal m1 + digitVal m2) (hhi : v ≤ 59) :
    parseMinF (m1 :: m2 :: rest) = some (v, rest) := by
  have a1 : 48 ≤ m1.toNat ∧ m1.toNat ≤ 57 := by simpa [isDigitC] using h1
  have a2 : 48 ≤ m2.toNat ∧ m2.toNat ≤ 57 := by simpa [isDigitC] using h2
  simp only [digitVal] at hv
  have hr : 48 ≤ m1.toNat ∧ m1.toNat ≤ 53 := by omega
  simp [parseMinF, hr.1, hr.2, h2, digitVal]
  omega

lemma parseSecF_strict (s1 s2 : Char) (rest : List Char) (v : Nat)
    (h1 : isDigitC s1 = true) (h2 : isDigitC s2 = true)
    (hv : v = 10 * digitVal s1 + digitVal s2) (hhi : v ≤ 59) :
    parseSecF (s1 :: s2 :: rest) = some (v, rest) := by
  have a1 : 48 ≤ s1.toNat ∧ s1.toNat ≤ 57 := by simpa [isDigitC] using h1
  have a2 : 48 ≤ s2.toNat ∧ s2.toNat ≤ 57 := by simpa [isDigitC] using h2
  simp only [digitVal] at hv
  have hne : s1.toNat ≠ 54 := by omega
  have hr : 48 ≤ s1.toNat ∧ s1.toNat ≤ 53 := by omega
  simp [parseSecF, hne, hr.1, hr.2, h2, digitVal]
  omega

lemma stringExt (a b : String) (h : a.data = b.data) : a = b := by
  cases a; cases b; exact congrArg String.mk h

lemma char_eq_ofNat (c : Char) (n : Nat) (h : c.toNat = n) : c = Char.ofNat n := by
  rw [← h, Char.ofNat_toNat]

lemma daysInMonth_le (y m : Nat) : daysInMonth y m ≤ 31 := by
  unfold daysInMonth
  split
  · split <;> omega
  · split <;> omega

lemma pyStrptimeTs_strict (ts : String) (y mo d hh mi se : Nat)
    (htf : tsFieldVals ts = some (y, mo, d, hh, mi, se))
    (h1000 : 1000 ≤ y) (hmo1 : 1 ≤ mo) (hmo12 : mo ≤ 12) (hd1 : 1 ≤ d)
    (hdmax : d ≤ daysInMonth y mo) (hhm : hh ≤ 23) (hmim : mi ≤ 59) (hsem : se ≤ 59) :
    pyStrptimeTs ts = Except.ok ⟨y, mo, d, hh, mi, se⟩ ∧
      fmtDate ⟨y, mo, d, hh, mi, se⟩ = String.mk (ts.data.take 10) := by
  unfold tsFieldVals at htf
  split at htf
  case h_2 => exact Option.noConfusion htf
  case h_1 y1 y2 y3 y4 s1 m1 m2 s2 d1 d2 s3 h1c h2c s4 mi1 mi2 s5 se1 se2 s6 hdata =>
  split at htf
  case isFalse => exact Option.noConfusion htf
  case isTrue hcond =>
  simp only [Bool.and_eq_true, decide_eq_true_eq, and_assoc] at hcond
  obtain ⟨hy1, hy2, hy3, hy4, hs1, hm1, hm2, hs2, hd1c, hd2c, hs3, hh1, hh2, hs4,
    hmi1, hmi2, hs5, hse1, hse2, hs6⟩ := hcond
  simp only [Option.some.injEq, Prod.mk.injEq] at htf
  obtain ⟨hy, hmo', hd', hh', hmi', hse'⟩ := htf
  subst hy hmo' hd' hh' hmi' hse'
  constructor
  · unfold pyStrptimeTs
    rw [hdata]
    rw [show ([y1, y2, y3, y4, s1, m1, m2, s2, d1, d2, s3, h1c, h2c, s4, mi1, mi2, s5,
      se1, se2, s6] : List Char)
      = y1 :: y2 :: y3 :: y4 :: (s1 :: m1 :: m2 :: s2 :: d1 :: d2 :: s3 :: h1c :: h2c :: s4 ::
        mi1 :: mi2 :: s5 :: se1 :: se2 :: [s6]) from rfl]
    rw [parseYearF_strict y1 y2 y3 y4 _ hy1 hy2 hy3 hy4]
    simp only [Option.bind_eq_bind, Option.some_bind]
    rw [show expectChar 45 (s1 :: m1 :: m2 :: s2 :: d1 :: d2 :: s3 :: h1c :: h2c :: s4 ::
        mi1 :: mi2 :: s5 :: se1 :: se2 :: [s6]) = some (m1 :: m2 :: s2 :: d1 :: d2 :: s3 ::
        h1c :: h2c :: s4 :: mi1 :: mi2 :: s5 :: se1 :: se2 :: [s6]) from by
      simp [expectChar, hs1]]
    simp only [Option.some_bind]
    rw [parseMonthF_strict m1 m2 _ _ hm1 hm2 rfl hmo1 hmo12]
    simp only [Option.some_bind]
    rw [show expectChar 45 (s2 :: d1 :: d2 :: s3 :: h1c :: h2c :: s4 ::
        mi1 :: mi2 :: s5 :: se1 :: se2 :: [s6]) = some (d1 :: d2 :: s3 ::
        h1c :: h2c :: s4 :: mi1 :: mi2 :: s5 :: se1 :: se2 :: [s6]) from by
      simp [expectChar, hs2]]
    simp only [Option.some_bind]
    rw [parseDayF_strict d1 d2 _ _ hd1c hd2c rfl hd1 (le_trans hdmax (daysInMonth_le _ _))]
    simp only [Option.some_bind]
    rw [show expectChar 84 (s3 :: h1c :: h2c :: s4 :: mi1 :: mi2 :: s5 :: se1 :: se2 :: [s6])
      = some (h1c :: h2c :: s4 :: mi1 :: mi2 :: s5 :: se1 :: se2 :: [s6]) from by
      simp [expectChar, hs3]]
    simp only [Option.some_bind]
    rw [parseHourF_strict h1c h2c _ _ hh1 hh2 rfl hhm]
    simp only [Option.some_bind]
    rw [show expectChar 58 (s4 :: mi1 :: mi2 :: s5 :: se1 :: se2 :: [s6])
      = some (mi1 :: mi2 :: s5 :: se1 :: se2 :: [s6]) from by simp [expectChar, hs4]]
    simp only [Option.some_bind]
    rw [parseMinF_strict mi1 mi2 _ _ hmi1 hmi2 rfl hmim]
    simp only [Option.some_bind]
    rw [show expectChar 58 (s5 :: se1 :: se2 :: [s6]) = some (se1 :: se2 :: [s6]) from by
      simp [expectChar, hs5]]
    simp only [Option.some_bind]
    rw [parseSecF_strict se1 se2 _ _ hse1 hse2 rfl hsem]
    simp only [Option.some_bind]
    rw [show expectChar 90 [s6] = some [] from by simp [expectChar, hs6]]
    simp only [Option.some_bind, if_true]
    split
    · rfl
    · rename_i hfalse
      exfalso
      apply hfalse
      simp only [Bool.and_eq_true, decide_eq_true_eq]
      exact ⟨⟨⟨by omega, by omega⟩, hdmax⟩, by omega⟩
  · have hpadm : pad2 (10 * digitVal m1 + digitVal m2) = String.mk [m1, m2] :=
      stringExt _ _ (pad2_chars m1 m2 _ hm1 hm2 rfl)
    have hpadd : pad2 (10 * digitVal d1 + digitVal d2) = String.mk [d1, d2] :=
      stringExt _ _ (pad2_chars d1 d2 _ hd1c hd2c rfl)
    have hnum : numChars (1000 * digitVal y1 + 100 * digitVal y2 + 10 * digitVal y3 + digitVal y4)
        = [y1, y2, y3, y4] :=
      numChars_four_chars y1 y2 y3 y4 _ hy1 hy2 hy3 hy4 rfl h1000
    have hs1' : s1 = '-' := char_eq_ofNat s1 45 hs1
    have hs2' : s2 = '-' := char_eq_ofNat s2 45 hs2
    rw [hdata]
    unfold fmtDate natStr
    rw [hnum, hpadm, hpadd, hs1', hs2']
    rfl

/-- C5 (amended): a timestamp in the strict `YYYY-MM-DDThh:mm:ssZ` shape
whose fields are in range (four-digit year at least 1000, month 1-12, day
within the month, hour at most 23, minute and second at most 59) yields
`scan_date` equal to its first ten characters (the `YYYY-MM-DD` reformat)
and `scan_month` equal to the English month name; and a timestamp
`strptime` rejects aborts the build with a `ValueError` and no request.
The original claim fails in the other direction: the parser also accepts
one-digit month/day/hour/minute/second spellings that do not match the
fixed format (see the counterexample). -/
theorem c5_theorem :
    (∀ ts y mo d hh mi se, tsFieldVals ts = some (y, mo, d, hh, mi, se) →
      1000 ≤ y → 1 ≤ mo → mo ≤ 12 → 1 ≤ d → d ≤ daysInMonth y mo → hh ≤ 23 → mi ≤ 59 →
      se ≤ 59 →
      scan_date_of ts = Except.ok (String.mk (ts.data.take 10)) ∧
        scan_month_of ts = Except.ok (monthName mo)) ∧
    (∀ (s : Settings) (e : Event) (t : TransportResult),
      pyStrptimeTs e.meta.creationTimestamp = Except.error PyErr.valueError →
      send_to_dojo s e t = (none, Outcome.failure (HandlerErr.py PyErr.valueError))) := by
  constructor
  · intro ts y mo d hh mi se htf h1000 hmo1 hmo12 hd1 hdmax hhm hmim hsem
    obtain ⟨hok, hfmt⟩ :=
      pyStrptimeTs_strict ts y mo d hh mi se htf h1000 hmo1 hmo12 hd1 hdmax hhm hmim hsem
    constructor
    · unfold scan_date_of
      rw [hok]
      simp only [Except.map]
      rw [hfmt]
    · unfold scan_month_of
      rw [hok]
      simp only [Except.map]
  · intro s e t herr
    have hb : buildRequest s e = Except.error PyErr.valueError := by
      simp [buildRequest, herr]
    exact send_of_build_error s e t PyErr.valueError hb

/-- C5 witness: the spec's own example timestamp gives scan date
`2023-09-11` and month `September`. -/
theorem c5_witness :
    scan_date_of "2023-09-11T06:36:16Z" = Except.ok "2023-09-11" ∧
      scan_month_of "2023-09-11T06:36:16Z" = Except.ok "September" :=
  c5_theorem.1 "2023-09-11T06:36:16Z" 2023 9 11 6 36 16 rfl (by decide) (by decide)
    (by decide) (by decide) (by decide) (by decide) (by decide) (by decide)

/-- C5 counterexample: `2023-9-11T06:36:16Z` (one-digit month) does not
match the fixed format, yet the code accepts it and produces a scan date,
contradicting the claim that every other format fails the build. -/
theorem c5_counterexample :
    specFixedFormat "2023-9-11T06:36:16Z" = false ∧
      scan_date_of "2023-9-11T06:36:16Z" = Except.ok "2023-09-11" ∧
      scan_month_of "2023-9-11T06:36:16Z" = Except.ok "September" :=
  ⟨rfl, rfl, rfl⟩

lemma dictInsert_append (d : List (String × Json)) (k : String) (v : Json)
    (h : ∀ p ∈ d, p.1 ≠ k) : dictInsert d k v = d ++ [(k, v)] := by
  unfold dictInsert
  have hany : (d.any (fun p => p.1 == k)) = false := by
    rw [List.any_eq_false]
    intro p hp
    simpa using h p hp
  simp [hany]

lemma full_object_aux (rest : List (String × Json)) : ∀ acc : List (String × Json),
    ((acc ++ rest).map Prod.fst).Nodup →
    List.foldl (fun a p => dictInsert a p.1 p.2) acc rest = acc ++ rest := by
  induction rest with
  | nil => intro acc _; simp
  | cons p rest ih =>
    intro acc h
    obtain ⟨k, v⟩ := p
    have hnotin : ∀ q ∈ acc, q.1 ≠ k := by
      intro q hq hqk
      rw [List.map_append, List.nodup_append] at h
      exact h.2.2 (List.mem_map_of_mem Prod.fst hq) (by simp [hqk])
    rw [List.foldl_cons]
    show List.foldl (fun a p => dictInsert a p.1 p.2) (dictInsert acc k v) rest
      = acc ++ (k, v) :: rest
    rw [dictInsert_append acc k v hnotin]
    rw [ih (acc ++ [(k, v)]) (by simpa [List.append_assoc] using h)]
    simp

lemma full_object_id (body : List (String × Json)) (h : (body.map Prod.fst).Nodup) :
    full_object body = body := by
  have := full_object_aux body [] (by simpa using h)
  simpa [full_object] using this

lemma digitVal_digitChar (n : Nat) (h : n < 10) : digitVal (digitChar n) = n := by
  simp [digitVal, digitChar_toNat n h]

lemma isDigitC_digitChar (n : Nat) (h : n < 10) : isDigitC (digitChar n) = true := by
  simp [isDigitC, digitChar_toNat n h]
  omega

lemma numChars_all_digits (n : Nat) : ∀ c ∈ numChars n, isDigitC c = true := by
  induction n using Nat.strong_induction_on with
  | _ n ih =>
    by_cases hn : n < 10
    · rw [numChars_lt n hn]
      intro c hc
      simp at hc
      rw [hc]
      exact isDigitC_digitChar n hn
    · rw [numChars_ge n (by omega)]
      intro c hc
      rcases List.mem_append.mp hc with h1 | h2
      · exact ih (n / 10) (Nat.div_lt_self (by omega) (by omega)) c h1
      · simp at h2
        rw [h2]
        exact isDigitC_digitChar (n % 10) (Nat.mod_lt n (by omega))

lemma numChars_ne_nil (n : Nat) : numChars n ≠ [] := by
  by_cases hn : n < 10
  · rw [numChars_lt n hn]; simp
  · rw [numChars_ge n (by omega)]; simp

lemma parseDigitsAcc_digits : ∀ (ds : List Char) (acc : Nat) (rest : List Char),
    (∀ c ∈ ds, isDigitC c = true) →
    (rest = [] ∨ ∃ c' r', rest = c' :: r' ∧ isDigitC c' = false) →
    parseDigitsAcc acc (ds ++ rest) =
      (List.foldl (fun a c => a * 10 + digitVal c) acc ds, rest) := by
  intro ds
  induction ds with
  | nil =>
    intro acc rest _ hrest
    rcases hrest with h | ⟨c', r', hr, hnd⟩
    · subst h; simp [parseDigitsAcc]
    · subst hr; simp [parseDigitsAcc, hnd]
  | cons d ds ih =>
    intro acc rest hds hrest
    have hd : isDigitC d = true := hds d (by simp)
    simp only [List.cons_append, parseDigitsAcc, hd, if_true, List.foldl_cons]
    exact ih (acc * 10 + digitVal d) rest (fun c hc => hds c (by simp [hc])) hrest

lemma foldl_numChars (n : Nat) : ∀ acc : Nat,
    List.foldl (fun a c => a * 10 + digitVal c) acc (numChars n) =
      acc * 10 ^ (numChars n).length + n := by
  induction n using Nat.strong_induction_on with
  | _ n ih =>
    intro acc
    by_cases hn : n < 10
    · rw [numChars_lt n hn]
      simp [digitVal_digitChar n hn]
    · rw [numChars_ge n (by omega)]
      rw [List.foldl_append, ih (n / 10) (Nat.div_lt_self (by omega) (by omega)) acc]
      simp only [List.foldl_cons, List.foldl_nil, List.length_append, List.length_cons,
        List.length_nil, digitVal_digitChar (n % 10) (Nat.mod_lt n (by omega))]
      have hdm := Nat.div_add_mod n 10
      rw [pow_succ]
      ring_nf
      omega

lemma numChars_head_digit (n : Nat) :
    ∃ d ds, numChars n = d :: ds ∧ isDigitC d = true ∧ (∀ c ∈ ds, isDigitC c = true) := by
  cases hnc : numChars n with
  | nil => exact absurd hnc (numChars_ne_nil n)
  | cons d ds =>
    refine ⟨d, ds, rfl, ?_, ?_⟩
    · exact numChars_all_digits n d (by rw [hnc]; simp)
    · intro c hc
      exact numChars_all_digits n c (by rw [hnc]; simp [hc])

lemma parseDigitsAcc_numChars (n : Nat) (c : Char) (ds : List Char) (rest : List Char)
    (hnc : numChars n = c :: ds)
    (hrest : rest = [] ∨ ∃ c' r', rest = c' :: r' ∧ isDigitC c' = false) :
    parseDigitsAcc (digitVal c) (ds ++ rest) = (n, rest) := by
  have hds : ∀ c ∈ ds, isDigitC c = true := by
    intro c hc
    exact numChars_all_digits n c (by rw [hnc]; simp [hc])
  rw [parseDigitsAcc_digits ds (digitVal c) rest hds hrest]
  have hfold := foldl_numChars n 0
  rw [hnc] at hfold
  simp only [List.foldl_cons, Nat.zero_mul, Nat.zero_add] at hfold
  rw [hfold]

lemma data_append (a b : String) : (a ++ b).data = a.data ++ b.data := by
  cases a; cases b; rfl

lemma parseIntJ_repr (n : Int) (rest : List Char)
    (hrest : rest = [] ∨ ∃ c' r', rest = c' :: r' ∧ isDigitC c' = false) :
    parseIntJ ((intRepr n).data ++ rest) = some (n, rest) := by
  by_cases hneg : n < 0
  · rw [intRepr, if_pos hneg, data_append]
    obtain ⟨d, ds, hnc, hd, _⟩ := numChars_head_digit n.natAbs
    have hdash : ("-" : String).data = ['-'] := rfl
    have hnat : (natStr n.natAbs).data = numChars n.natAbs := rfl
    rw [hdash, hnat, hnc]
    have hd45 : ¬ d.toNat = 45 := by
      have : 48 ≤ d.toNat ∧ d.toNat ≤ 57 := by simpa [isDigitC] using hd
      omega
    simp only [List.cons_append, List.nil_append, parseIntJ, hd,
      parseDigitsAcc_numChars n.natAbs d ds rest hnc hrest]
    simp
    rw [abs_of_neg hneg]
    ring
  · rw [intRepr, if_neg hneg]
    obtain ⟨d, ds, hnc, hd, _⟩ := numChars_head_digit n.toNat
    have hnat : (natStr n.toNat).data = numChars n.toNat := rfl
    rw [hnat, hnc]
    have hd45 : ¬ d.toNat = 45 := by
      have : 48 ≤ d.toNat ∧ d.toNat ≤ 57 := by simpa [isDigitC] using hd
      omega
    simp only [List.cons_append, parseIntJ, hd45, if_false, hd, if_true,
      parseDigitsAcc_numChars n.toNat d ds rest hnc hrest]
    simp
    omega

lemma hexVal_hexDigitChar : ∀ n, n < 16 → hexVal (hexDigitChar n) = some n := by decide

lemma parseStrChars_escape (l : List Char) : ∀ (fuel : Nat) (rest : List Char),
    l.length + 1 ≤ fuel →
    parseStrChars fuel (escapeChars l ++ '"' :: rest) = some (l, rest) := by
  induction l with
  | nil =>
    intro fuel rest hf
    cases fuel with
    | zero => omega
    | succ f => simp [escapeChars, parseStrChars]
  | cons c t ih =>
    intro fuel rest hf
    cases fuel with
    | zero => omega
    | succ f =>
    have iht := ih f rest (by simp at hf ⊢; omega)
    show parseStrChars (f + 1) ((escapeChar c ++ escapeChars t) ++ '"' :: rest) = _
    rw [List.append_assoc]
    by_cases h1 : c = '"'
    · subst h1; simp [escapeChar, parseStrChars, parseEscSeq, escCharOf, iht]
    · by_cases h2 : c = '\\'
      · subst h2; simp [escapeChar, parseStrChars, parseEscSeq, escCharOf, iht]
      · by_cases h3 : c = '\n'
        · subst h3; simp [escapeChar, parseStrChars, parseEscSeq, escCharOf, iht]
        · by_cases h4 : c = '\t'
          · subst h4; simp [escapeChar, parseStrChars, parseEscSeq, escCharOf, iht]
          · by_cases h5 : c = '\r'
            · subst h5; simp [escapeChar, parseStrChars, parseEscSeq, escCharOf, iht]
            · by_cases h6 : c.toNat = 8
              · have hc : c = Char.ofNat 8 := char_eq_ofNat c 8 h6
                rw [escapeChar, if_neg h1, if_neg h2, if_neg h3, if_neg h4, if_neg h5,
                  if_pos h6]
                simp [parseStrChars, parseEscSeq, escCharOf, iht, hc]
              · by_cases h7 : c.toNat = 12
                · have hc : c = Char.ofNat 12 := char_eq_ofNat c 12 h7
                  rw [escapeChar, if_neg h1, if_neg h2, if_neg h3, if_neg h4, if_neg h5,
                    if_neg h6, if_pos h7]
                  simp [parseStrChars, parseEscSeq, escCharOf, iht, hc]
                · by_cases h8 : c.toNat < 32
                  · rw [escapeChar, if_neg h1, if_neg h2, if_neg h3, if_neg h4, if_neg h5,
                      if_neg h6, if_neg h7, if_pos h8]
                    have hdiv : c.toNat / 16 < 16 := by omega
                    have hmod : c.toNat % 16 < 16 := Nat.mod_lt _ (by omega)
                    have hdm : 16 * (c.toNat / 16) + c.toNat % 16 = c.toNat :=
                      Nat.div_add_mod c.toNat 16
                    have h0 : hexVal '0' = some 0 := rfl
                    simp [parseStrChars, parseEscSeq, h0, hexVal_hexDigitChar _ hdiv,
                      hexVal_hexDigitChar _ hmod, iht, hdm, Char.ofNat_toNat]
                  · have hne : ¬ c.toNat = 34 := by
                      intro hx; exact h1 (char_eq_ofNat c 34 hx)
                    have hne2 : ¬ c.toNat = 92 := by
                      intro hx; exact h2 (char_eq_ofNat c 92 hx)
                    rw [escapeChar, if_neg h1, if_neg h2, if_neg h3, if_neg h4, if_neg h5,
                      if_neg h6, if_neg h7, if_neg h8]
                    simp [parseStrChars, hne, hne2, iht]

lemma escapeChar_length_pos (c : Char) : 1 ≤ (escapeChar c).length := by
  unfold escapeChar
  repeat' split
  all_goals simp

lemma escapeChars_length (l : List Char) : l.length ≤ (escapeChars l).length := by
  induction l with
  | nil => simp [escapeChars]
  | cons c t ih =>
    show t.length + 1 ≤ (escapeChar c ++ escapeChars t).length
    have := escapeChar_length_pos c
    simp only [List.length_append]
    omega

lemma jsize_pos (j : Json) : 1 ≤ jsize j := by cases j <;> simp [jsize]

lemma intRepr_head (n : Int) :
    ∃ c cs, (intRepr n).data = c :: cs ∧ (c.toNat = 45 ∨ (48 ≤ c.toNat ∧ c.toNat ≤ 57)) := by
  by_cases hneg : n < 0
  · refine ⟨'-', numChars n.natAbs, ?_, Or.inl (by decide)⟩
    rw [intRepr, if_pos hneg, data_append]
    rfl
  · obtain ⟨d, ds, hnc, hd, _⟩ := numChars_head_digit n.toNat
    refine ⟨d, ds, ?_, Or.inr (by simpa [isDigitC] using hd)⟩
    rw [intRepr, if_neg hneg]
    exact hnc

lemma dumps_head (j : Json) : ∃ c cs, (dumpsVal j).data = c :: cs ∧ ¬ c.toNat = 93 := by
  cases j with
  | null => exact ⟨'n', ['u', 'l', 'l'], by simp [dumpsVal], by decide⟩
  | bool b =>
    cases b with
    | true => exact ⟨'t', ['r', 'u', 'e'], by simp [dumpsVal], by decide⟩
    | false => exact ⟨'f', ['a', 'l', 's', 'e'], by simp [dumpsVal], by decide⟩
  | int n =>
    obtain ⟨c, cs, hdata, hc⟩ := intRepr_head n
    exact ⟨c, cs, by simp [dumpsVal, hdata], by omega⟩
  | str s =>
    exact ⟨'"', escapeChars s.data ++ ['"'], by simp [dumpsVal, jsonQuote], by decide⟩
  | arr l =>
    exact ⟨'[', (dumpsElems l).data ++ [']'], by simp [dumpsVal, data_append], by decide⟩
  | obj l =>
    exact ⟨Char.ofNat 123, (dumpsItems l).data ++ [Char.ofNat 125], by
      simp [dumpsVal, data_append], by decide⟩

lemma stopper_not_digit (rest : List Char)
    (hstop : rest = [] ∨ ∃ c' r', rest = c' :: r' ∧
      (c'.toNat = 44 ∨ c'.toNat = 93 ∨ c'.toNat = 125)) :
    rest = [] ∨ ∃ c' r', rest = c' :: r' ∧ isDigitC c' = false := by
  rcases hstop with h | ⟨c', r', hr, hc⟩
  · exact Or.inl h
  · refine Or.inr ⟨c', r', hr, ?_⟩
    simp [isDigitC]
    omega

lemma parseStr_escape (l : List Char) (rest : List Char) :
    parseStr (escapeChars l ++ '"' :: rest) = some (l, rest) := by
  unfold parseStr
  apply parseStrChars_escape
  have := escapeChars_length l
  simp only [List.length_append, List.length_cons]
  omega

mutual

theorem parseVal_dumps : ∀ (j : Json) (fuel : Nat) (rest : List Char), jsize j ≤ fuel →
    (rest = [] ∨ ∃ c' r', rest = c' :: r' ∧
      (c'.toNat = 44 ∨ c'.toNat = 93 ∨ c'.toNat = 125)) →
    parseVal fuel ((dumpsVal j).data ++ rest) = some (j, rest)
  | Json.null, fuel, rest, hf, _ => by
    cases fuel with
    | zero => simp [jsize] at hf
    | succ f =>
      have hdata : (dumpsVal Json.null).data = ['n', 'u', 'l', 'l'] := by simp [dumpsVal]
      rw [hdata]
      simp [parseVal, parseLit3]
  | Json.bool true, fuel, rest, hf, _ => by
    cases fuel with
    | zero => simp [jsize] at hf
    | succ f =>
      have hdata : (dumpsVal (Json.bool true)).data = ['t', 'r', 'u', 'e'] := by simp [dumpsVal]
      rw [hdata]
      simp [parseVal, parseLit3]
  | Json.bool false, fuel, rest, hf, _ => by
    cases fuel with
    | zero => simp [jsize] at hf
    | succ f =>
      have hdata : (dumpsVal (Json.bool false)).data = ['f', 'a', 'l', 's', 'e'] := by
        simp [dumpsVal]
      rw [hdata]
      simp [parseVal, parseLit4]
  | Json.int n, fuel, rest, hf, hstop => by
    cases fuel with
    | zero => simp [jsize] at hf
    | succ f =>
      obtain ⟨c, cs, hdata, hc⟩ := intRepr_head n
      have hint := parseIntJ_repr n rest (stopper_not_digit rest hstop)
      rw [hdata] at hint
      have hdval : (dumpsVal (Json.int n)).data = c :: cs := by simp [dumpsVal, hdata]
      rw [hdval]
      have hdig : (c.toNat = 45 || isDigitC c) = true := by
        simp [isDigitC]
        omega
      simp only [List.cons_append, parseVal,
        if_neg (by omega : ¬ c.toNat = 110), if_neg (by omega : ¬ c.toNat = 116),
        if_neg (by omega : ¬ c.toNat = 102), if_neg (by omega : ¬ c.toNat = 34),
        if_neg (by omega : ¬ c.toNat = 91), if_neg (by omega : ¬ c.toNat = 123),
        hdig, if_true]
      rw [show (c :: (cs ++ rest)) = (c :: cs) ++ rest from rfl, hint]
      rfl
  | Json.str s, fuel, rest, hf, _ => by
    cases fuel with
    | zero => simp [jsize] at hf
    | succ f =>
      have hdata : (dumpsVal (Json.str s)).data = '"' :: (escapeChars s.data ++ ['"']) := by
        simp [dumpsVal, jsonQuote]
      rw [hdata]
      have hstr := parseStr_escape s.data rest
      have hmk : String.mk s.data = s := rfl
      simp [parseVal, hstr, hmk]
  | Json.arr l, fuel, rest, hf, _ => by
    cases fuel with
    | zero => simp [jsize] at hf
    | succ f =>
      have hdata : (dumpsVal (Json.arr l)).data = '[' :: ((dumpsElems l).data ++ [']']) := by
        simp [dumpsVal, data_append]
      rw [hdata]
      have hsize : jsizeL l ≤ f := by simp [jsize] at hf; omega
      have helems := parseElems_dumps l f rest hsize
      simp [parseVal, helems]
  | Json.obj l, fuel, rest, hf, _ => by
    cases fuel with
    | zero => simp [jsize] at hf
    | succ f =>
      have hdata : (dumpsVal (Json.obj l)).data
          = Char.ofNat 123 :: ((dumpsItems l).data ++ [Char.ofNat 125]) := by
        simp [dumpsVal, data_append]
      rw [hdata]
      have hsize : jsizeO l ≤ f := by simp [jsize] at hf; omega
      have hitems := parseItems_dumps l f rest hsize
      simp [parseVal, hitems]

theorem parseElems_dumps : ∀ (l : List Json) (fuel : Nat) (rest : List Char), jsizeL l ≤ fuel →
    parseElems fuel ((dumpsElems l).data ++ (']' :: rest)) = some (l, rest)
  | [], fuel, rest, hf => by
    cases fuel with
    | zero => simp [jsizeL] at hf
    | succ f =>
      have hdata : (dumpsElems ([] : List Json)).data = [] := rfl
      rw [hdata]
      simp [parseElems]
  | [a], fuel, rest, hf => by
    cases fuel with
    | zero => simp [jsizeL] at hf
    | succ f =>
      obtain ⟨c, cs, hdata, hc93⟩ := dumps_head a
      have hsize : jsize a ≤ f + 1 := by simp [jsizeL] at hf; omega
      have hv := parseVal_dumps a (f + 1) (']' :: rest) hsize
        (Or.inr ⟨']', rest, rfl, Or.inr (Or.inl (by decide))⟩)
      rw [hdata] at hv
      have hdel : (dumpsElems [a]).data = c :: cs := by
        simp [dumpsElems, hdata]
      rw [hdel]
      simp only [List.cons_append] at hv ⊢
      simp [parseElems, hc93, hv]
  | a :: b :: t, fuel, rest, hf => by
    cases fuel with
    | zero => simp [jsizeL] at hf
    | succ f =>
      obtain ⟨c, cs, hdata, hc93⟩ := dumps_head a
      have hsa := jsize_pos a
      have hsize : jsize a ≤ f + 1 := by simp [jsizeL] at hf ⊢; omega
      have hsize2 : jsizeL (b :: t) ≤ f := by simp [jsizeL] at hf ⊢; omega
      have hv := parseVal_dumps a (f + 1)
        (',' :: ' ' :: ((dumpsElems (b :: t)).data ++ (']' :: rest))) hsize
        (Or.inr ⟨',', _, rfl, Or.inl (by decide)⟩)
      rw [hdata] at hv
      have ht := parseElems_dumps (b :: t) f rest hsize2
      have hdel : (dumpsElems (a :: b :: t)).data
          = c :: (cs ++ ',' :: ' ' :: (dumpsElems (b :: t)).data) := by
        simp [dumpsElems, data_append, hdata]
      rw [hdel]
      simp only [List.cons_append, List.append_assoc] at hv ⊢
      simp [parseElems, hc93, hv, ht]

theorem parseItems_dumps : ∀ (l : List (String × Json)) (fuel : Nat) (rest : List Char),
    jsizeO l ≤ fuel →
    parseItems fuel ((dumpsItems l).data ++ (Char.ofNat 125 :: rest)) = some (l, rest)
  | [], fuel, rest, hf => by
    cases fuel with
    | zero => simp [jsizeO] at hf
    | succ f =>
      have hdata : (dumpsItems ([] : List (String × Json))).data = [] := rfl
      rw [hdata]
      simp [parseItems]
  | [(k, v)], fuel, rest, hf => by
    cases fuel with
    | zero => simp [jsizeO] at hf
    | succ f =>
      have hsize : jsize v ≤ f + 1 := by simp [jsizeO] at hf; omega
      have hv := parseVal_dumps v (f + 1) (Char.ofNat 125 :: rest) hsize
        (Or.inr ⟨Char.ofNat 125, rest, rfl, Or.inr (Or.inr (by decide))⟩)
      have hdel : (dumpsItems [(k, v)]).data
          = '"' :: (escapeChars k.data ++ '"' :: ':' :: ' ' :: (dumpsVal v).data) := by
        simp [dumpsItems, jsonQuote, data_append]
      rw [hdel]
      have hstr := parseStr_escape k.data (':' :: ' ' ::
        ((dumpsVal v).data ++ Char.ofNat 125 :: rest))
      have hmk : String.mk k.data = k := rfl
      simp only [List.cons_append, List.append_assoc] at hv hstr ⊢
      simp [parseItems, hstr, hv, hmk]
  | (k, v) :: i2 :: t, fuel, rest, hf => by
    cases fuel with
    | zero => simp [jsizeO] at hf
    | succ f =>
      have hsv := jsize_pos v
      have hsize : jsize v ≤ f + 1 := by simp [jsizeO] at hf ⊢; omega
      have hsize2 : jsizeO (i2 :: t) ≤ f := by simp [jsizeO] at hf ⊢; omega
      have hv := parseVal_dumps v (f + 1)
        (',' :: ' ' :: ((dumpsItems (i2 :: t)).data ++ (Char.ofNat 125 :: rest))) hsize
        (Or.inr ⟨',', _, rfl, Or.inl (by decide)⟩)
      have ht := parseItems_dumps (i2 :: t) f rest hsize2
      have hdel : (dumpsItems ((k, v) :: i2 :: t)).data
          = '"' :: (escapeChars k.data ++ '"' :: ':' :: ' ' ::
              ((dumpsVal v).data ++ ',' :: ' ' :: (dumpsItems (i2 :: t)).data)) := by
        simp [dumpsItems, jsonQuote, data_append]
      rw [hdel]
      have hstr := parseStr_escape k.data (':' :: ' ' ::
        ((dumpsVal v).data ++ ',' :: ' ' :: ((dumpsItems (i2 :: t)).data ++
          Char.ofNat 125 :: rest)))
      have hmk : String.mk k.data = k := rfl
      simp only [List.cons_append, List.append_assoc] at hv hstr ht ⊢
      simp [parseItems, hstr, hv, ht, hmk]

end

mutual

theorem jsize_le_dumps : ∀ j : Json, jsize j ≤ 2 * (dumpsVal j).data.length
  | Json.null => by simp [jsize, dumpsVal]
  | Json.bool true => by simp [jsize, dumpsVal]
  | Json.bool false => by simp [jsize, dumpsVal]
  | Json.int n => by
    obtain ⟨c, cs, hdata, _⟩ := intRepr_head n
    have : (dumpsVal (Json.int n)).data = c :: cs := by simp [dumpsVal, hdata]
    rw [this]
    simp [jsize]
    omega
  | Json.str s => by
    have : (dumpsVal (Json.str s)).data = '"' :: (escapeChars s.data ++ ['"']) := by
      simp [dumpsVal, jsonQuote]
    rw [this]
    simp [jsize]
    omega
  | Json.arr l => by
    have hd : (dumpsVal (Json.arr l)).data = '[' :: ((dumpsElems l).data ++ [']']) := by
      simp [dumpsVal, data_append]
    have := jsizeL_le_dumps l
    rw [hd]
    simp only [jsize, List.length_cons, List.length_append, List.length_nil]
    omega
  | Json.obj l => by
    have hd : (dumpsVal (Json.obj l)).data
        = Char.ofNat 123 :: ((dumpsItems l).data ++ [Char.ofNat 125]) := by
      simp [dumpsVal, data_append]
    have := jsizeO_le_dumps l
    rw [hd]
    simp only [jsize, List.length_cons, List.length_append, List.length_nil]
    omega

theorem jsizeL_le_dumps : ∀ l : List Json, jsizeL l ≤ 3 + 2 * (dumpsElems l).data.length
  | [] => by simp [jsizeL, dumpsElems]
  | [a] => by
    have hd : (dumpsElems [a]).data = (dumpsVal a).data := by simp [dumpsElems]
    have := jsize_le_dumps a
    rw [hd]
    simp only [jsizeL]
    omega
  | a :: b :: t => by
    have hd : (dumpsElems (a :: b :: t)).data
        = (dumpsVal a).data ++ ',' :: ' ' :: (dumpsElems (b :: t)).data := by
      simp [dumpsElems, data_append]
    have h1 := jsize_le_dumps a
    have h2 := jsizeL_le_dumps (b :: t)
    rw [hd]
    simp only [jsizeL, List.length_append, List.length_cons] at h2 ⊢
    omega

theorem jsizeO_le_dumps : ∀ l : List (String × Json), jsizeO l ≤ 3 + 2 * (dumpsItems l).data.length
  | [] => by simp [jsizeO, dumpsItems]
  | [(k, v)] => by
    have hd : (dumpsItems [(k, v)]).data
        = '"' :: (escapeChars k.data ++ '"' :: ':' :: ' ' :: (dumpsVal v).data) := by
      simp [dumpsItems, jsonQuote, data_append]
    have := jsize_le_dumps v
    rw [hd]
    simp only [jsizeO, List.length_cons, List.length_append]
    omega
  | (k, v) :: i2 :: t => by
    have hd : (dumpsItems ((k, v) :: i2 :: t)).data
        = '"' :: (escapeChars k.data ++ '"' :: ':' :: ' ' ::
            ((dumpsVal v).data ++ ',' :: ' ' :: (dumpsItems (i2 :: t)).data)) := by
      simp [dumpsItems, jsonQuote, data_append]
    have h1 := jsize_le_dumps v
    have h2 := jsizeO_le_dumps (i2 :: t)
    rw [hd]
    simp only [jsizeO, List.length_cons, List.length_append] at h2 ⊢
    omega

end

theorem parseJson_dumps (j : Json) : parseJson (dumps j) = some j := by
  unfold parseJson dumps
  have hlen : (dumpsVal j).length = (dumpsVal j).data.length := rfl
  have hfuel : jsize j ≤ 2 * (dumpsVal j).length + 2 := by
    have := jsize_le_dumps j
    omega
  have h := parseVal_dumps j (2 * (dumpsVal j).length + 2) [] hfuel (Or.inl rfl)
  rw [List.append_nil] at h
  rw [h]

/-- C9 (amended): whenever the handler actually posts a request, the
uploaded file part is named `report.json` and its content, parsed back as
JSON, is exactly the original event body, item for item and in order (the
body's keys are distinct, as they are in any Python dict).  For a body
shaped exactly as the spec documents, nothing is ever uploaded; see the C9
counterexample and C2. -/
theorem c9_file_roundtrip (s : Settings) (e : Event) (t : TransportResult) (req : HttpRequest)
    (hsent : (send_to_dojo s e t).1 = some req)
    (hnodup : (e.body.map Prod.fst).Nodup) :
    req.fileName = "report.json" ∧ parseJson req.fileContent = some (Json.obj e.body) := by
  have hb := build_ok_of_sent s e t req hsent
  obtain ⟨dtA, dtB, nsv, kd, ct, nm, sv, rp, tg, dg, rp2, _, _, _, _, _, _, _, _, _, _, _, hreq⟩ :=
    buildRequest_ok_shape s e req hb
  subst hreq
  refine ⟨rfl, ?_⟩
  show parseJson (dumps (Json.obj (full_object e.body))) = some (Json.obj e.body)
  rw [full_object_id e.body hnodup]
  exact parseJson_dumps (Json.obj e.body)

/-- C9 witness: the round trip at a concrete posted request. -/
theorem c9_file_roundtrip_witness :
    goodRequest.fileName = "report.json" ∧
      parseJson goodRequest.fileContent = some (Json.obj goodEvent.body) :=
  c9_file_roundtrip sampleSettings goodEvent (TransportResult.response 200 "OK" "imported")
    goodRequest rfl (by decide)

/-- C9 counterexample: on a well-formed event shaped exactly as the spec
documents, no file is uploaded at all: the build dies on the mistyped
`arficat` lookup before the POST. -/
theorem c9_no_upload_for_documented_shape :
    (send_to_dojo sampleSettings specShapedEvent9 (TransportResult.response 200 "OK" "imported")).1
        = none ∧
      (send_to_dojo sampleSettings specShapedEvent9 (TransportResult.response 200 "OK" "imported")).2
        = Outcome.failure (HandlerErr.py (PyErr.keyError "arficat")) :=
  ⟨rfl, rfl⟩
